import Mathlib

/-!
# Magic binder placeholders: the layout and pagination code of `BinderUI._renderCards`

A shallow embedding of `src/scripts/ui.js` (`BinderUI._renderCards`, lines 460-592, the
control handlers of the constructor, lines 143-154, and `loadCardList`, lines 264-285) and of
the set-list methods of `src/scripts/api.js` (`fetchSet` and `fetchSetList`, lines 47-91),
followed by theorems about them.

Modelling conventions.

* A JavaScript string is a Lean `String`; the value of a DOM input is a string.
* The number returned by the built-in `parseInt` is an `Option Int`: `none` is `NaN`, and an
  integer is kept exactly (a double is exact up to 2^53; `-0` is `0`).
* The number returned by the built-in `parseFloat` is an `Option ℚ`: `none` is `NaN`, a finite
  number is kept as an exact rational.  `parseFloat` itself is not modelled: the functions that
  consume its result take that result as their argument.
* A property read on an object literal (`rarityCounts`, `rarityLabels`) is a `Property`: the
  value of an own key, `undefined`, or a value inherited from `Object.prototype` (a function
  or object, for a key such as `constructor` or `__proto__`).
* The grid math is given twice: over exact rationals, and over `Binary64`, the
  round-to-nearest arithmetic of JavaScript numbers that the code runs.
* `Array.prototype.sort` is a stable sort; it is modelled by a stable insertion sort.
-/

namespace MagicBinder

/-! ## JavaScript built-ins used by the code -/

/-- The JavaScript expression `x || d` for a number `x` and a non-zero default `d`: `NaN`
(`none`) and `0` are falsy and give `d`; every other number is truthy and is returned. -/
def jsOr {α : Type} [Zero α] [DecidableEq α] (x : Option α) (d : α) : α :=
  match x with
  | some v => if v = 0 then d else v
  | none => d

/-- White space that `parseInt` strips from the start of its argument (ECMAScript
`StrWhiteSpaceChar`: TAB, LF, VT, FF, CR, SP, NBSP, the `Zs` category, LS, PS, ZWNBSP). -/
def isStrWhiteSpaceChar (c : Char) : Bool :=
  c.toNat ∈ [0x09, 0x0A, 0x0B, 0x0C, 0x0D, 0x20, 0xA0, 0x1680, 0x2028, 0x2029, 0x202F, 0x205F,
    0x3000, 0xFEFF] || (0x2000 ≤ c.toNat && c.toNat ≤ 0x200A)

/-- Value of a character as a digit (`0`-`9`, then `a`-`z` or `A`-`Z` for 10 to 35). -/
def digitValue (c : Char) : Option Nat :=
  if 48 ≤ c.toNat ∧ c.toNat ≤ 57 then some (c.toNat - 48)
  else if 97 ≤ c.toNat ∧ c.toNat ≤ 122 then some (c.toNat - 87)
  else if 65 ≤ c.toNat ∧ c.toNat ≤ 90 then some (c.toNat - 55)
  else none

/-- Whether `c` is a digit of radix `R`. -/
def isRadixDigit (R : Nat) (c : Char) : Bool :=
  match digitValue c with
  | some d => decide (d < R)
  | none => false

/-- The integer written by the radix-`R` digits `Z`. -/
def mathInt (R : Nat) (Z : List Char) : Nat :=
  Z.foldl (fun acc c => acc * R + (digitValue c).getD 0) 0

/-- Step 3 of `parseInt`: the sign is -1 when the trimmed input starts with `-`. -/
def parseIntSign (S : List Char) : Int :=
  match S with
  | '-' :: _ => -1
  | _ => 1

/-- Step 4 of `parseInt`: a leading `+` or `-` is removed. -/
def dropSign (S : List Char) : List Char :=
  match S with
  | '-' :: t => t
  | '+' :: t => t
  | _ => S

/-- Steps 5 to 10 of `parseInt` without a radix argument: after a leading `0x` or `0X` the
radix is 16 and the two characters are removed, otherwise the radix is 10. -/
def radixAndRest (S : List Char) : Nat × List Char :=
  match S with
  | '0' :: 'x' :: t => (16, t)
  | '0' :: 'X' :: t => (16, t)
  | _ => (10, S)

/-- The built-in `parseInt(string)` called without a radix (ECMAScript 2024, 19.2.5): strip
leading white space, read an optional sign, switch to radix 16 after a leading `0x` or `0X`,
take the longest run of digits of the radix, and return `NaN` (`none`) when that run is
empty. -/
def parseInt (string : String) : Option Int :=
  let S := string.data.dropWhile isStrWhiteSpaceChar
  let sign := parseIntSign S
  let RS := radixAndRest (dropSign S)
  let Z := RS.2.takeWhile (isRadixDigit RS.1)
  if Z.isEmpty then none else some (sign * (mathInt RS.1 Z : Int))

/-- Lexicographic three-way comparison of two character sequences by code point. -/
def compareChars : List Char → List Char → Int
  | [], [] => 0
  | [], _ :: _ => -1
  | _ :: _, [] => 1
  | a :: as, b :: bs =>
    if a.toNat < b.toNat then -1
    else if b.toNat < a.toNat then 1
    else compareChars as bs

/-- The built-in `a.localeCompare(b)`, modelled as the lexicographic comparison of the raw
strings by code point (negative, zero or positive); locale-specific collation is not
modelled. -/
def localeCompare (a b : String) : Int := compareChars a.data b.data

/-- The built-in `toLowerCase`, on the ASCII range. -/
def toLowerCase (s : String) : String := String.mk (s.data.map Char.toLower)

/-- The built-in `toUpperCase`, on the ASCII range. -/
def toUpperCase (s : String) : String := String.mk (s.data.map Char.toUpper)

/-- The built-in `s.charAt(0)`: the first character as a string, or the empty string. -/
def charAt0 (s : String) : String := String.mk (s.data.take 1)

/-! ## User options read from the control panel (`ui.js` 462-475) -/

/-- One margin of `_renderCards` (`ui.js` 463-466): `parseFloat(input.value) || 0.16`, as a
function of the number `parseFloat` returned. -/
def marginValue (parsed : Option ℚ) : ℚ := jsOr parsed (4 / 25)

/-- One rarity count of `_renderCards` (`ui.js` 469-472): `parseInt(input.value) || 1`. -/
def rarityCount (value : String) : Int := jsOr (parseInt value) 1

/-- The `columns` and `rows` of `_renderCards` (`ui.js` 474-475, and the control handlers at
152-153): `Math.max(1, Math.min(8, parseInt(input.value) || 4))`. -/
def gridDimension (value : String) : Int := max 1 (min 8 (jsOr (parseInt value) 4))

/-! ## Cards and settings -/

/-- A card record as `_renderCards` reads it: `name`, `rarity` (`none` when the property is
absent, that is `undefined` or `null`) and `collector_number`. -/
structure Card where
  name : String
  rarity : Option String
  collector_number : String
deriving DecidableEq

/-- The object `rarityCounts` built by `_renderCards` (`ui.js` 468-473): its four own keys. -/
structure RarityCounts where
  mythic : Int
  rare : Int
  uncommon : Int
  common : Int
deriving DecidableEq

/-- The result of a property read `object[key]` on an object literal: the value of an own
key, `undefined` when the key is neither own nor inherited, or the value that every object
inherits from `Object.prototype` for that key. -/
inductive Property (α : Type) where
  | undefined
  | own (value : α)
  | inherited
deriving DecidableEq

/-- The keys that an object literal inherits from `Object.prototype`.  Each holds a function,
except `__proto__`, which holds the prototype object: all are truthy and none is a number or
a string. -/
def inheritedKeys : List String :=
  ["constructor", "__defineGetter__", "__defineSetter__", "hasOwnProperty",
   "__lookupGetter__", "__lookupSetter__", "isPrototypeOf", "propertyIsEnumerable",
   "toString", "valueOf", "__proto__", "toLocaleString"]

/-- Property read `rarityCounts[key]`. -/
def RarityCounts.get (rarityCounts : RarityCounts) (key : String) : Property Int :=
  if key = "mythic" then Property.own rarityCounts.mythic
  else if key = "rare" then Property.own rarityCounts.rare
  else if key = "uncommon" then Property.own rarityCounts.uncommon
  else if key = "common" then Property.own rarityCounts.common
  else if key ∈ inheritedKeys then Property.inherited
  else Property.undefined

/-- Property read `this._settings.rarityLabels[key]` on the defaults of `settings.js`
6-16. -/
def rarityLabels (key : String) : Property String :=
  if key = "mythic" then Property.own "M"
  else if key = "rare" then Property.own "R"
  else if key = "uncommon" then Property.own "U"
  else if key = "common" then Property.own "C"
  else if key = "special" then Property.own "S"
  else if key = "bonus" then Property.own "B"
  else if key = "promo" then Property.own "P"
  else if key = "token" then Property.own "T"
  else if key = "land" then Property.own "L"
  else if key ∈ inheritedKeys then Property.inherited
  else Property.undefined

/-- The method `_escapeHTML` (`ui.js` 379-383). -/
def _escapeHTML (str : String) : String :=
  String.mk (str.data.flatMap fun c =>
    if c = '&' then "&amp;".data
    else if c = '<' then "&lt;".data
    else if c = '>' then "&gt;".data
    else if c = '"' then "&quot;".data
    else if c = Char.ofNat 39 then "&#39;".data
    else [c])

/-! ## Expansion by rarity count (`ui.js` 544-548) -/

/-- The local `rarity` of the expansion loop: `(card.rarity || "unknown").toLowerCase()`; an
absent rarity and the empty string are falsy. -/
def rarityKey (card : Card) : String :=
  toLowerCase (match card.rarity with
    | some r => if r = "" then "unknown" else r
    | none => "unknown")

/-- The local `count` of the expansion loop: `rarityCounts[rarity] || 1`.  `undefined` and
the number 0 are falsy and give 1; a non-zero number is kept, and so is an inherited function
or object, which is truthy. -/
def expansionCount (rarityCounts : RarityCounts) (card : Card) : Property Int :=
  match rarityCounts.get (rarityKey card) with
  | Property.undefined => Property.own 1
  | Property.own n => if n = 0 then Property.own 1 else Property.own n
  | Property.inherited => Property.inherited

/-- The number of passes of `for (let i = 0; i < count; ++i)`: none when the number `count`
is not positive; none either when `count` is a function or an object, which `i < count`
converts to `NaN`, so that the test is false at once. -/
def loopPasses (count : Property Int) : Nat :=
  match count with
  | Property.own n => n.toNat
  | Property.undefined => 0
  | Property.inherited => 0

/-- The expansion loop: for each card in order, `for (i = 0; i < count; ++i)` pushes the
card. -/
def expandCards (rarityCounts : RarityCounts) (cards : List Card) : List Card :=
  cards.foldl
    (fun expandedCards card =>
      expandedCards ++ List.replicate (loopPasses (expansionCount rarityCounts card)) card)
    []

/-- The duplicate count in the words of the specification: `rarityCounts[r]` for the
lower-cased rarity `r` (`"unknown"` when the rarity is absent) when that key is mapped, and 1
otherwise. -/
def specExpansionCount (rarityCounts : RarityCounts) (card : Card) : Int :=
  match rarityCounts.get (toLowerCase (card.rarity.getD "unknown")) with
  | Property.own n => n
  | Property.undefined => 1
  | Property.inherited => 1

/-! ## Sort by collector number (`ui.js` 550-554) -/

/-- The comparator on collector numbers: `na - nb` when neither `parseInt` result is `NaN`,
otherwise `localeCompare` of the raw strings. -/
def compareCollectorNumbers (a b : String) : Int :=
  match parseInt a, parseInt b with
  | some na, some nb => na - nb
  | _, _ => localeCompare a b

/-- Whether the comparator takes its numeric branch: `!isNaN(na) && !isNaN(nb)`. -/
def numericBranch (a b : String) : Bool :=
  (parseInt a).isSome && (parseInt b).isSome

/-- The comparator passed to `expandedCards.sort`. -/
def comparator (a b : Card) : Int :=
  compareCollectorNumbers a.collector_number b.collector_number

/-- The call `expandedCards.sort(comparator)`: a stable sort, placing `a` before `b` when the
comparator is not positive. -/
def sortCards (expandedCards : List Card) : List Card :=
  expandedCards.insertionSort (fun a b => comparator a b ≤ 0)

/-- The order of two cards by their parsed collector numbers, both of which parse. -/
def NumericLE (a b : Card) : Prop :=
  ∃ na nb : Int, parseInt a.collector_number = some na ∧
    parseInt b.collector_number = some nb ∧ na ≤ nb

/-! ## Grid loop (`ui.js` 560-591) -/

/-- One `div` appended to the binder grid: the three class names and the three escaped
texts. -/
structure Cell where
  col_class : String
  row_class : String
  page_break_class : String
  name : String
  rarityLabel : String
  collector_number : String
deriving DecidableEq

/-- The local `col_idx = idx % columns`. -/
def col_idx (columns idx : Nat) : Nat := idx % columns

/-- The local `row_idx = Math.floor(idx / columns) % rows`. -/
def row_idx (columns rows idx : Nat) : Nat := (idx / columns) % rows

/-- The column class (`ui.js` 567-570). -/
def col_class (columns idx : Nat) : String :=
  if col_idx columns idx = 0 then "first-column"
  else if col_idx columns idx = columns - 1 then "last-column"
  else "middle-column"

/-- The row class (`ui.js` 573-576). -/
def row_class (columns rows idx : Nat) : String :=
  if row_idx columns rows idx = 0 then "first-row"
  else if row_idx columns rows idx = rows - 1 then "last-row"
  else "middle-row"

/-- The page-break class (`ui.js` 579-580), with `cardsPerPage = rows * columns`. -/
def page_break_class (columns rows idx : Nat) : String :=
  if (idx + 1) % (rows * columns) = 0 then "page-break" else ""

/-- The local `rarityLabel` (`ui.js` 584):
`rarityLabels[card.rarity] || card.rarity.charAt(0).toUpperCase()`, as the string that
`_escapeHTML(rarityLabel)` receives at line 587; `none` when the loop body raises a
`TypeError`.  With the rarity absent the first operand is `undefined` and `card.rarity.charAt`
raises.  With a rarity that names an inherited key the first operand is a function or an
object, which is truthy and has no method `replace`, so `_escapeHTML` raises. -/
def rarityLabel (card : Card) : Option String :=
  match card.rarity with
  | none => none
  | some r =>
    match rarityLabels r with
    | Property.own label => if label = "" then some (toUpperCase (charAt0 r)) else some label
    | Property.undefined => some (toUpperCase (charAt0 r))
    | Property.inherited => none

/-- The body of the grid loop for the card at `idx`: the cell it appends, or `none` when it
raises. -/
def renderCell (columns rows idx : Nat) (card : Card) : Option Cell :=
  match rarityLabel card with
  | none => none
  | some label =>
    some
      { col_class := col_class columns idx
        row_class := row_class columns rows idx
        page_break_class := page_break_class columns rows idx
        name := _escapeHTML card.name
        rarityLabel := _escapeHTML label
        collector_number := _escapeHTML card.collector_number }

/-- The children of the binder grid after the grid loop, and whether the loop raised. -/
structure GridResult where
  cells : List Cell
  threw : Bool
deriving DecidableEq

/-- The grid loop from index `idx` on: cells are appended in order until the list is
exhausted or a loop body raises, which ends the loop. -/
def renderGrid (columns rows : Nat) : Nat → List Card → GridResult
  | _, [] => { cells := [], threw := false }
  | idx, card :: rest =>
    match renderCell columns rows idx card with
    | none => { cells := [], threw := true }
    | some cell =>
      let r := renderGrid columns rows (idx + 1) rest
      { cells := cell :: r.cells, threw := r.threw }

/-! ## The method `_renderCards` -/

/-- The values of the control-panel inputs that `_renderCards` reads: for the four margins
the number `parseFloat` returns, for the counts and the grid size the text. -/
structure Inputs where
  marginTop : Option ℚ
  marginRight : Option ℚ
  marginBottom : Option ℚ
  marginLeft : Option ℚ
  mythic : String
  rare : String
  uncommon : String
  common : String
  columns : String
  rows : String

/-- The object `rarityCounts` of `_renderCards` (`ui.js` 468-473). -/
def readRarityCounts (inputs : Inputs) : RarityCounts :=
  { mythic := rarityCount inputs.mythic
    rare := rarityCount inputs.rare
    uncommon := rarityCount inputs.uncommon
    common := rarityCount inputs.common }

/-- What `_renderCards` leaves in the binder grid: `none` is the message
"No cards to display." (`this._cards` absent or not an array, `ui.js` 540-543), otherwise the
cells of the grid loop over the expanded, sorted cards. -/
def _renderCards (inputs : Inputs) (_cards : Option (List Card)) : Option GridResult :=
  match _cards with
  | none => none
  | some cards =>
    some (renderGrid (gridDimension inputs.columns).toNat (gridDimension inputs.rows).toNat 0
      (sortCards (expandCards (readRarityCounts inputs) cards)))

/-! ## Grid math and dynamic style sheet (`ui.js` 477-535), in exact rational arithmetic -/

/-- The object `margins` of `_renderCards`, in inches. -/
structure Margins where
  top : ℚ
  right : ℚ
  bottom : ℚ
  left : ℚ

/-- The object `margins` as `_renderCards` reads it from the inputs (`ui.js` 462-467). -/
def readMargins (inputs : Inputs) : Margins :=
  { top := marginValue inputs.marginTop
    right := marginValue inputs.marginRight
    bottom := marginValue inputs.marginBottom
    left := marginValue inputs.marginLeft }

/-- The constant `paperWidth = 8.5`. -/
def paperWidth : ℚ := 17 / 2

/-- The constant `paperHeight = 11`. -/
def paperHeight : ℚ := 11

/-- The constant `stupidHack = 0.001`. -/
def stupidHack : ℚ := 1 / 1000

/-- The local `printableWidth` (`ui.js` 481). -/
def printableWidth (margins : Margins) : ℚ :=
  paperWidth - margins.left - margins.right + stupidHack

/-- The local `printableHeight` (`ui.js` 482). -/
def printableHeight (margins : Margins) : ℚ :=
  paperHeight - margins.top - margins.bottom + stupidHack

/-- The local `visualLeftRightMargin = Math.max(margins.left, margins.right)`. -/
def visualLeftRightMargin (margins : Margins) : ℚ := max margins.left margins.right

/-- The local `visualTopBottomMargin = Math.max(margins.top, margins.bottom)`. -/
def visualTopBottomMargin (margins : Margins) : ℚ := max margins.top margins.bottom

/-- The local `shimLeft` (`ui.js` 489). -/
def shimLeft (margins : Margins) : ℚ :=
  if margins.right > margins.left then |margins.right - margins.left| else 0

/-- The local `shimRight` (`ui.js` 490). -/
def shimRight (margins : Margins) : ℚ :=
  if margins.left > margins.right then |margins.left - margins.right| else 0

/-- The local `shimTop` (`ui.js` 491). -/
def shimTop (margins : Margins) : ℚ :=
  if margins.bottom > margins.top then |margins.bottom - margins.top| else 0

/-- The local `shimBottom` (`ui.js` 492). -/
def shimBottom (margins : Margins) : ℚ :=
  if margins.top > margins.bottom then |margins.top - margins.bottom| else 0

/-- The local `usableWidth` (`ui.js` 495). -/
def usableWidth (margins : Margins) : ℚ := paperWidth - 2 * visualLeftRightMargin margins

/-- The local `usableHeight` (`ui.js` 496). -/
def usableHeight (margins : Margins) : ℚ := paperHeight - 2 * visualTopBottomMargin margins

/-- The local `cardLeftRightPaddingCount = (columns - 1) * 2`. -/
def cardLeftRightPaddingCount (columns : Nat) : ℚ := ((columns : ℚ) - 1) * 2

/-- The local `cardTopBottomPaddingCount = (rows - 1) * 2`. -/
def cardTopBottomPaddingCount (rows : Nat) : ℚ := ((rows : ℚ) - 1) * 2

/-- The local `cardLeftRightPadding = visualLeftRightMargin / 2`. -/
def cardLeftRightPadding (margins : Margins) : ℚ := visualLeftRightMargin margins / 2

/-- The local `cardTopBottomPadding = visualTopBottomMargin / 2`. -/
def cardTopBottomPadding (margins : Margins) : ℚ := visualTopBottomMargin margins / 2

/-- The local `cardMarginlessWidth` (`ui.js` 505). -/
def cardMarginlessWidth (margins : Margins) (columns : Nat) : ℚ :=
  (usableWidth margins - cardLeftRightPaddingCount columns * cardLeftRightPadding margins)
    / (columns : ℚ)

/-- The local `cardMarginlessHeight` (`ui.js` 506). -/
def cardMarginlessHeight (margins : Margins) (rows : Nat) : ℚ :=
  (usableHeight margins - cardTopBottomPaddingCount rows * cardTopBottomPadding margins)
    / (rows : ℚ)

/-- The local `cardWidthEdge` (`ui.js` 509). -/
def cardWidthEdge (margins : Margins) (columns : Nat) : ℚ :=
  cardMarginlessWidth margins columns + cardLeftRightPadding margins

/-- The local `cardWidthMiddle` (`ui.js` 510). -/
def cardWidthMiddle (margins : Margins) (columns : Nat) : ℚ :=
  cardMarginlessWidth margins columns + 2 * cardLeftRightPadding margins

/-- The local `cardHeightEdge` (`ui.js` 511). -/
def cardHeightEdge (margins : Margins) (rows : Nat) : ℚ :=
  cardMarginlessHeight margins rows + cardTopBottomPadding margins

/-- The local `cardHeightMiddle` (`ui.js` 512). -/
def cardHeightMiddle (margins : Margins) (rows : Nat) : ℚ :=
  cardMarginlessHeight margins rows + 2 * cardTopBottomPadding margins

/-- The `width` that the dynamic style sheet (`ui.js` 527-529) gives to a column class, in
inches; the style sheet has no rule for another class name (0 here). -/
def cssWidth (margins : Margins) (columns : Nat) (className : String) : ℚ :=
  if className = "first-column" then cardWidthEdge margins columns
  else if className = "middle-column" then cardWidthMiddle margins columns
  else if className = "last-column" then cardWidthEdge margins columns
  else 0

/-- The `height` that the dynamic style sheet (`ui.js` 530-532) gives to a row class, in
inches; the style sheet has no rule for another class name (0 here). -/
def cssHeight (margins : Margins) (rows : Nat) (className : String) : ℚ :=
  if className = "first-row" then cardHeightEdge margins rows
  else if className = "middle-row" then cardHeightMiddle margins rows
  else if className = "last-row" then cardHeightEdge margins rows
  else 0

/-- Total outer width of the cells of one full grid row (indices 0 to `columns - 1`), each
cell taking the `width` of the column class the grid loop assigns to it. -/
def gridRowWidth (margins : Margins) (columns : Nat) : ℚ :=
  ((List.range columns).map
    (fun idx => cssWidth margins columns (col_class columns idx))).sum

/-- Total outer height of the cells of one full grid column (the first cell of each of the
`rows` rows of a page), each cell taking the `height` of the row class the grid loop assigns
to it. -/
def gridColumnHeight (margins : Margins) (columns rows : Nat) : ℚ :=
  ((List.range rows).map
    (fun r => cssHeight margins rows (row_class columns rows (r * columns)))).sum

/-! ## The grid math in the arithmetic of JavaScript numbers -/

/-- A finite JavaScript number in its IEEE 754 binary64 form: the sign, the 53-bit
significand `mant` (hidden bit included, so `2^52 ≤ mant < 2^53`) and the biased exponent
field `exp`; the value is `± mant * 2^(exp - 1075)`.  Zero is `mant = 0`, `exp = 0`.
Subnormal numbers, infinities and `NaN` are outside this model. -/
structure Binary64 where
  negative : Bool
  mant : Nat
  exp : Nat
deriving DecidableEq

namespace Binary64

/-- The number `+0`. -/
def zero : Binary64 := { negative := false, mant := 0, exp := 0 }

/-- Helper of `floorLog2`: halve `n` until it is below 2, at most `fuel` times. -/
def floorLog2Aux : Nat → Nat → Nat
  | 0, _ => 0
  | fuel + 1, n => if n < 2 then 0 else floorLog2Aux fuel (n / 2) + 1

/-- The position of the highest set bit of `n`: `floor(log2 n)` for `n > 0`. -/
def floorLog2 (n : Nat) : Nat := floorLog2Aux n n

/-- Rounding to nearest, ties to even: the binary64 number nearest to
`± (num / den) * 2^(e - 1075)`.  The quotient is scaled by a power of two into
`[2^52, 2^53)`, cut to an integer `q` with remainder `r`, and rounded up when the remainder
is above one half, or equal to one half with `q` odd.  A result below the normal range
(exponent field under 1) is outside the model. -/
def roundNearestEven (negative : Bool) (num den e : Nat) : Binary64 :=
  if num = 0 ∨ den = 0 then zero
  else
    let la := floorLog2 num
    let lb := floorLog2 den
    let n0 := if la ≤ 52 + lb then num * 2 ^ (52 + lb - la) else num
    let d := if la ≤ 52 + lb then den else den * 2 ^ (la - (52 + lb))
    let low := decide (n0 < 2 ^ 52 * d)
    let n := if low then 2 * n0 else n0
    let shift := if low then 53 + lb else 52 + lb
    let q := n / d
    let r := n % d
    let up := decide (d < 2 * r) || (decide (2 * r = d) && decide (q % 2 = 1))
    let q1 := if up then q + 1 else q
    if q1 = 2 ^ 53 then { negative := negative, mant := 2 ^ 52, exp := e + la + 1 - shift }
    else { negative := negative, mant := q1, exp := e + la - shift }

/-- The JavaScript sum `x + y`: the exact sum, rounded. -/
def add (x y : Binary64) : Binary64 :=
  let e := if x.exp ≤ y.exp then x.exp else y.exp
  let a := x.mant * 2 ^ (x.exp - e)
  let b := y.mant * 2 ^ (y.exp - e)
  if x.negative = y.negative then roundNearestEven x.negative (a + b) 1 e
  else if b ≤ a then roundNearestEven x.negative (a - b) 1 e
  else roundNearestEven y.negative (b - a) 1 e

/-- The JavaScript difference `x - y`. -/
def sub (x y : Binary64) : Binary64 :=
  add x { negative := !y.negative, mant := y.mant, exp := y.exp }

/-- The JavaScript product `x * y`: the exact product, rounded. -/
def mul (x y : Binary64) : Binary64 :=
  roundNearestEven (x.negative != y.negative) (x.mant * y.mant) 1 (x.exp + y.exp - 1075)

/-- The JavaScript quotient `x / y` for `y` not zero: the exact quotient, rounded. -/
def div (x y : Binary64) : Binary64 :=
  roundNearestEven (x.negative != y.negative) x.mant y.mant (x.exp + 1075 - y.exp)

/-- The JavaScript comparison `x < y`. -/
def lt (x y : Binary64) : Bool :=
  let e := if x.exp ≤ y.exp then x.exp else y.exp
  let a := x.mant * 2 ^ (x.exp - e)
  let b := y.mant * 2 ^ (y.exp - e)
  match x.negative, y.negative with
  | false, false => decide (a < b)
  | true, true => decide (b < a)
  | true, false => decide (0 < a ∨ 0 < b)
  | false, true => false

/-- The built-in `Math.max(x, y)`. -/
def jsMax (x y : Binary64) : Binary64 := if lt x y then y else x

/-- The built-in `Math.abs(x)`. -/
def jsAbs (x : Binary64) : Binary64 := { negative := false, mant := x.mant, exp := x.exp }

/-- The number of a non-negative integer literal or integer variable. -/
def ofNat (n : Nat) : Binary64 := roundNearestEven false n 1 1075

/-- The number that a decimal numeral `num / den` denotes, as a literal of the source or as
the result of `parseFloat`: the binary64 number nearest to it. -/
def ofDecimal (num den : Nat) : Binary64 := roundNearestEven false num den 1075

/-- The exact value of a number. -/
def toRat (x : Binary64) : ℚ :=
  (if x.negative then -1 else 1) * (x.mant : ℚ) * (2 : ℚ) ^ x.exp / (2 : ℚ) ^ 1075

/-- The object `margins` of `_renderCards`, as JavaScript numbers. -/
structure Margins where
  top : Binary64
  right : Binary64
  bottom : Binary64
  left : Binary64

/-- The constant `paperWidth = 8.5`. -/
def paperWidth : Binary64 := ofDecimal 85 10

/-- The constant `paperHeight = 11`. -/
def paperHeight : Binary64 := ofNat 11

/-- The local `visualLeftRightMargin = Math.max(margins.left, margins.right)`. -/
def visualLeftRightMargin (margins : Margins) : Binary64 := jsMax margins.left margins.right

/-- The local `visualTopBottomMargin = Math.max(margins.top, margins.bottom)`. -/
def visualTopBottomMargin (margins : Margins) : Binary64 := jsMax margins.top margins.bottom

/-- The local `shimLeft` (`ui.js` 489). -/
def shimLeft (margins : Margins) : Binary64 :=
  if lt margins.left margins.right then jsAbs (sub margins.right margins.left) else zero

/-- The local `shimRight` (`ui.js` 490). -/
def shimRight (margins : Margins) : Binary64 :=
  if lt margins.right margins.left then jsAbs (sub margins.left margins.right) else zero

/-- The local `shimTop` (`ui.js` 491). -/
def shimTop (margins : Margins) : Binary64 :=
  if lt margins.top margins.bottom then jsAbs (sub margins.bottom margins.top) else zero

/-- The local `shimBottom` (`ui.js` 492). -/
def shimBottom (margins : Margins) : Binary64 :=
  if lt margins.bottom margins.top then jsAbs (sub margins.top margins.bottom) else zero

/-- The local `usableWidth = paperWidth - 2 * visualLeftRightMargin`. -/
def usableWidth (margins : Margins) : Binary64 :=
  sub paperWidth (mul (ofNat 2) (visualLeftRightMargin margins))

/-- The local `usableHeight = paperHeight - 2 * visualTopBottomMargin`. -/
def usableHeight (margins : Margins) : Binary64 :=
  sub paperHeight (mul (ofNat 2) (visualTopBottomMargin margins))

/-- The local `cardLeftRightPaddingCount = (columns - 1) * 2`. -/
def cardLeftRightPaddingCount (columns : Nat) : Binary64 :=
  mul (sub (ofNat columns) (ofNat 1)) (ofNat 2)

/-- The local `cardTopBottomPaddingCount = (rows - 1) * 2`. -/
def cardTopBottomPaddingCount (rows : Nat) : Binary64 :=
  mul (sub (ofNat rows) (ofNat 1)) (ofNat 2)

/-- The local `cardLeftRightPadding = visualLeftRightMargin / 2`. -/
def cardLeftRightPadding (margins : Margins) : Binary64 :=
  div (visualLeftRightMargin margins) (ofNat 2)

/-- The local `cardTopBottomPadding = visualTopBottomMargin / 2`. -/
def cardTopBottomPadding (margins : Margins) : Binary64 :=
  div (visualTopBottomMargin margins) (ofNat 2)

/-- The local `cardMarginlessWidth` (`ui.js` 505). -/
def cardMarginlessWidth (margins : Margins) (columns : Nat) : Binary64 :=
  div (sub (usableWidth margins)
      (mul (cardLeftRightPaddingCount columns) (cardLeftRightPadding margins)))
    (ofNat columns)

/-- The local `cardMarginlessHeight` (`ui.js` 506). -/
def cardMarginlessHeight (margins : Margins) (rows : Nat) : Binary64 :=
  div (sub (usableHeight margins)
      (mul (cardTopBottomPaddingCount rows) (cardTopBottomPadding margins)))
    (ofNat rows)

/-- The local `cardWidthEdge = cardMarginlessWidth + cardLeftRightPadding`. -/
def cardWidthEdge (margins : Margins) (columns : Nat) : Binary64 :=
  add (cardMarginlessWidth margins columns) (cardLeftRightPadding margins)

/-- The local `cardWidthMiddle = cardMarginlessWidth + 2 * cardLeftRightPadding`. -/
def cardWidthMiddle (margins : Margins) (columns : Nat) : Binary64 :=
  add (cardMarginlessWidth margins columns) (mul (ofNat 2) (cardLeftRightPadding margins))

/-- The local `cardHeightEdge = cardMarginlessHeight + cardTopBottomPadding`. -/
def cardHeightEdge (margins : Margins) (rows : Nat) : Binary64 :=
  add (cardMarginlessHeight margins rows) (cardTopBottomPadding margins)

/-- The local `cardHeightMiddle = cardMarginlessHeight + 2 * cardTopBottomPadding`. -/
def cardHeightMiddle (margins : Margins) (rows : Nat) : Binary64 :=
  add (cardMarginlessHeight margins rows) (mul (ofNat 2) (cardTopBottomPadding margins))

/-- The `width` that the dynamic style sheet (`ui.js` 527-529) gives to a column class; the
style sheet has no rule for another class name (0 here). -/
def cssWidth (margins : Margins) (columns : Nat) (className : String) : Binary64 :=
  if className = "first-column" then cardWidthEdge margins columns
  else if className = "middle-column" then cardWidthMiddle margins columns
  else if className = "last-column" then cardWidthEdge margins columns
  else zero

/-- The `height` that the dynamic style sheet (`ui.js` 530-532) gives to a row class; the
style sheet has no rule for another class name (0 here). -/
def cssHeight (margins : Margins) (rows : Nat) (className : String) : Binary64 :=
  if className = "first-row" then cardHeightEdge margins rows
  else if className = "middle-row" then cardHeightMiddle margins rows
  else if className = "last-row" then cardHeightEdge margins rows
  else zero

/-- The object `margins` when the four margin inputs hold the default `0.16`. -/
def defaultMargins : Margins :=
  { top := ofDecimal 16 100, right := ofDecimal 16 100, bottom := ofDecimal 16 100,
    left := ofDecimal 16 100 }

end Binary64

/-! ## The public method `loadCardList` (`ui.js` 264-285) -/

/-- The test `!s.trim()` on a string: the string is empty once its white space is trimmed. -/
def isBlank (s : String) : Bool := s.data.all isStrWhiteSpaceChar

/-- The view state that `loadCardList` leaves when it returns: `this._cards`, the texts of the
set code and the set name, the binder grid rendered by `_renderCards`, and whether the print
view is shown. -/
structure LoadedView where
  _cards : List Card
  setCode : String
  setName : String
  binderGrid : Option GridResult
  printView : Bool
deriving DecidableEq

/-- How a call of `loadCardList` ends: it raises an error with a message, or it returns. -/
inductive LoadOutcome where
  | threw (message : String)
  | shown (view : LoadedView)
deriving DecidableEq

/-- The method `loadCardList(setCode, setName, cards, isPrintMode)`.  An argument that is
not of the expected type is `none`: `cards` when it is not an array (absent included),
`setCode` and `setName` when they are not strings.  The three guards raise in source order;
then `this._cards` is assigned and `_renderCards` runs, whose `TypeError` propagates. -/
def loadCardList (inputs : Inputs) (setCode setName : Option String)
    (cards : Option (List Card)) (isPrintMode : Bool) : LoadOutcome :=
  match cards with
  | none => LoadOutcome.threw "Card list must be an array."
  | some cardList =>
    match setCode with
    | none => LoadOutcome.threw "Set code must be a non-empty string."
    | some code =>
      if isBlank code then LoadOutcome.threw "Set code must be a non-empty string."
      else
        match setName with
        | none => LoadOutcome.threw "Set name must be a non-empty string."
        | some name =>
          if isBlank name then LoadOutcome.threw "Set name must be a non-empty string."
          else
            match _renderCards inputs (some cardList) with
            | some grid =>
              if grid.threw then LoadOutcome.threw "TypeError"
              else
                LoadOutcome.shown
                  { _cards := cardList, setCode := toUpperCase code, setName := name,
                    binderGrid := some grid, printView := isPrintMode }
            | none =>
              LoadOutcome.shown
                { _cards := cardList, setCode := toUpperCase code, setName := name,
                  binderGrid := none, printView := isPrintMode }

/-! ## The set list of `CardApi` (`api.js` 47-91) -/

/-- A set of the set list: its `code` and `name`. -/
structure SetRecord where
  code : String
  name : String
deriving DecidableEq

/-- A value bound to the parameter `force` of `fetchSetList(force = false)`: a boolean, or an
options object such as `{ force }`. -/
inductive ForceArgument where
  | boolean (b : Bool)
  | options (force : Bool)
deriving DecidableEq

/-- Truthiness of the argument, as `!force` tests it: a boolean is its value, an object is
truthy whatever its properties hold. -/
def ForceArgument.truthy : ForceArgument → Bool
  | ForceArgument.boolean b => b
  | ForceArgument.options _ => true

/-- What `fetchSetList` reads from outside: the cached set list (`none` when
`_loadSetListFromCache()` is `null`), the cached timestamp in milliseconds (0 when none is
stored), `Date.now()`, and what the `try` block would obtain from the network after filtering
and sorting (`none` when the fetch fails). -/
structure ApiEnvironment where
  cachedSetList : Option (List SetRecord)
  timestamp : Int
  now : Int
  network : Option (List SetRecord)

/-- The constant `CACHE_MAX_AGE_DAYS = 7`. -/
def CACHE_MAX_AGE_DAYS : Int := 7

/-- The local `cacheValid = ts && (Date.now() - ts < CACHE_MAX_AGE_DAYS * 86400000)`. -/
def cacheValid (env : ApiEnvironment) : Bool :=
  decide (env.timestamp ≠ 0) && decide (env.now - env.timestamp < CACHE_MAX_AGE_DAYS * 86400000)

/-- How an asynchronous call of the API ends, and whether it went to the network. -/
structure FetchOutcome (α : Type) where
  result : Except String α
  usedNetwork : Bool

/-- The method `fetchSetList(force)`: the cached list when there is one, `force` is falsy and
the cache is valid; otherwise the network, whose failure is raised as an error (the message
is kept up to its colon).  The writes to the cache after a fetch are not part of the
outcome. -/
def fetchSetList (env : ApiEnvironment) (force : ForceArgument) :
    FetchOutcome (List SetRecord) :=
  match env.cachedSetList with
  | some sets =>
    if !force.truthy && cacheValid env then { result := Except.ok sets, usedNetwork := false }
    else
      match env.network with
      | some fetched => { result := Except.ok fetched, usedNetwork := true }
      | none => { result := Except.error "Could not fetch set list", usedNetwork := true }
  | none =>
    match env.network with
    | some fetched => { result := Except.ok fetched, usedNetwork := true }
    | none => { result := Except.error "Could not fetch set list", usedNetwork := true }

/-- The method `fetchSet(setCode, { force = false } = {})`, with `force` the value the
destructuring binds (`false` when the caller gives no options): it calls
`this.fetchSetList({ force })`, passing the options object, and finds the set by its
lower-cased code. -/
def fetchSet (env : ApiEnvironment) (setCode : String) (force : Bool) :
    FetchOutcome SetRecord :=
  let setList := fetchSetList env (ForceArgument.options force)
  match setList.result with
  | Except.ok sets =>
    match sets.find? (fun s => toLowerCase s.code == toLowerCase setCode) with
    | some set => { result := Except.ok set, usedNetwork := setList.usedNetwork }
    | none =>
      { result :=
          Except.error
            ("Set with code " ++ String.singleton '"' ++ setCode ++ String.singleton '"'
              ++ " not found.")
        usedNetwork := setList.usedNetwork }
  | Except.error message => { result := Except.error message, usedNetwork := setList.usedNetwork }

/-! ## Theorems: user options -/

theorem jsOr_ne_zero {α : Type} [Zero α] [DecidableEq α] (x : Option α) (d : α) (hd : d ≠ 0) :
    jsOr x d ≠ 0 := by
  unfold jsOr
  split
  · split <;> assumption
  · exact hd

theorem jsOr_of_ne_zero {α : Type} [Zero α] [DecidableEq α] (v d : α) (hv : v ≠ 0) :
    jsOr (some v) d = v := by
  simp [jsOr, hv]

theorem jsOr_zero {α : Type} [Zero α] [DecidableEq α] (d : α) : jsOr (some (0 : α)) d = d := by
  simp [jsOr]

theorem jsOr_none {α : Type} [Zero α] [DecidableEq α] (d : α) : jsOr (none : Option α) d = d :=
  rfl

/-- C1, counterexample: the input `0` is read by `parseInt` as 0, which is falsy, so the
default 4 is taken before the clamp: the grid dimension is 4, not `max(1, min(8, 0)) = 1`. -/
theorem gridDimension_zero_counterexample :
    parseInt "0" = some 0 ∧ gridDimension "0" = 4 ∧ gridDimension "0" ≠ max 1 (min 8 0) := by
  decide

/-- C1, amended: for every input text the grid dimension lies in [1,8]; when `parseInt` reads
the text as a non-zero integer `v` it is `max(1, min(8, v))`; when `parseInt` reads 0 or fails
it is the default 4.  In particular -5 maps to 1, 0 to 4, 1 to 1, 8 to 8, 9 to 8 and 100 to
8. -/
theorem gridDimension_clamp (value : String) :
    (1 ≤ gridDimension value ∧ gridDimension value ≤ 8) ∧
    (∀ v : Int, parseInt value = some v → v ≠ 0 → gridDimension value = max 1 (min 8 v)) ∧
    (parseInt value = some 0 ∨ parseInt value = none → gridDimension value = 4) ∧
    (gridDimension "-5" = 1 ∧ gridDimension "0" = 4 ∧ gridDimension "1" = 1 ∧
      gridDimension "8" = 8 ∧ gridDimension "9" = 8 ∧ gridDimension "100" = 8) := by
  refine ⟨⟨?_, ?_⟩, ?_, ?_, by decide⟩
  · exact le_max_left _ _
  · exact max_le (by decide) (min_le_left _ _)
  · intro v h hv
    simp [gridDimension, h, jsOr, hv]
  · rintro (h | h) <;> simp [gridDimension, h, jsOr]

/-- C1, witness: the amended clamp at the input `9`. -/
theorem gridDimension_clamp_witness :
    parseInt "9" = some 9 ∧ gridDimension "9" = max 1 (min 8 9) :=
  ⟨by decide, (gridDimension_clamp "9").2.1 9 (by decide) (by decide)⟩

/-- C2, counterexample: a margin input that parses to 0 is replaced by 0.16 rather than used
as is, and one that parses to -1 is used as is, so the margin used is negative. -/
theorem marginValue_counterexample :
    marginValue (some 0) = 4 / 25 ∧ marginValue (some 0) ≠ 0 ∧
    marginValue (some (-1)) = -1 ∧ marginValue (some (-1)) < 0 := by
  norm_num [marginValue, jsOr]

/-- C2, amended: the margin used is never 0; an input that parses to a non-zero number,
positive or negative, is used as is; an input that fails to parse (`NaN`) or parses to 0 is
replaced by 0.16; the margin used is positive whenever the parsed input is not negative. -/
theorem marginValue_spec (parsed : Option ℚ) :
    marginValue parsed ≠ 0 ∧
    (∀ q : ℚ, parsed = some q → q ≠ 0 → marginValue parsed = q) ∧
    (parsed = none ∨ parsed = some 0 → marginValue parsed = 4 / 25) ∧
    ((∀ q : ℚ, parsed = some q → 0 ≤ q) → 0 < marginValue parsed) := by
  refine ⟨jsOr_ne_zero _ _ (by norm_num), ?_, ?_, ?_⟩
  · intro q h hq
    subst h
    exact jsOr_of_ne_zero q _ hq
  · rintro (h | h) <;> subst h
    · rfl
    · exact jsOr_zero _
  · intro h
    cases parsed with
    | none => norm_num [marginValue, jsOr]
    | some q =>
      have hq := h q rfl
      by_cases h0 : q = 0
      · subst h0
        norm_num [marginValue, jsOr]
      · rw [marginValue, jsOr_of_ne_zero q _ h0]
        exact lt_of_le_of_ne hq (Ne.symm h0)

/-- C2, witness: the amended margin rule at the parsed input 1/4. -/
theorem marginValue_spec_witness :
    marginValue (some (1 / 4)) = 1 / 4 ∧ 0 < marginValue (some (1 / 4)) :=
  ⟨(marginValue_spec (some (1 / 4))).2.1 (1 / 4) rfl (by norm_num),
    (marginValue_spec (some (1 / 4))).2.2.2 (fun q h => by
      cases h
      norm_num)⟩

/-- C3, counterexample: the text `-3` in the mythic input gives the count -3, which is not a
positive integer, and `_renderCards` then places a mythic card zero times. -/
theorem rarityCount_negative_counterexample :
    rarityCount "-3" = -3 ∧ ¬ (1 ≤ rarityCount "-3") ∧
    _renderCards
      { marginTop := none, marginRight := none, marginBottom := none, marginLeft := none,
        mythic := "-3", rare := "1", uncommon := "1", common := "1",
        columns := "4", rows := "4" }
      (some [{ name := "Black Lotus", rarity := some "mythic", collector_number := "1" }])
      = some { cells := [], threw := false } := by
  decide

/-- C3, amended: the duplicate count is never 0; non-numeric input and the input 0 are
corrected to 1; an input that `parseInt` reads as a non-zero integer, positive or negative, is
used as is; so the count is a positive integer whenever the input is not read as a negative
integer. -/
theorem rarityCount_spec (value : String) :
    rarityCount value ≠ 0 ∧
    (parseInt value = none ∨ parseInt value = some 0 → rarityCount value = 1) ∧
    (∀ n : Int, parseInt value = some n → n ≠ 0 → rarityCount value = n) ∧
    ((∀ n : Int, parseInt value = some n → 0 ≤ n) → 1 ≤ rarityCount value) := by
  refine ⟨jsOr_ne_zero _ _ (by decide), ?_, ?_, ?_⟩
  · rintro (h | h) <;> simp [rarityCount, h, jsOr]
  · intro n h hn
    simp [rarityCount, h, jsOr, hn]
  · intro h
    cases hp : parseInt value with
    | none => simp [rarityCount, hp, jsOr]
    | some n =>
      have hn := h n hp
      by_cases h0 : n = 0
      · simp [rarityCount, hp, jsOr, h0]
      · simp only [rarityCount, hp, jsOr, h0, if_false]
        omega

/-- C3, witness: the amended rule at the inputs `abc` (corrected to 1) and `3` (kept). -/
theorem rarityCount_spec_witness :
    rarityCount "abc" = 1 ∧ rarityCount "3" = 3 ∧ 1 ≤ rarityCount "3" :=
  ⟨(rarityCount_spec "abc").2.1 (Or.inl (by decide)),
    (rarityCount_spec "3").2.2.1 3 (by decide) (by decide),
    (rarityCount_spec "3").2.2.2 (fun n h => by
      have h3 : parseInt "3" = some 3 := by decide
      rw [h3] at h
      cases h
      decide)⟩

/-! ## Theorems: expansion -/

theorem foldl_append_replicate (f : Card → Nat) (cards : List Card) (acc : List Card) :
    cards.foldl (fun expandedCards card => expandedCards ++ List.replicate (f card) card) acc
      = acc ++ cards.flatMap (fun card => List.replicate (f card) card) := by
  induction cards generalizing acc with
  | nil => simp
  | cons c cs ih => simp [List.foldl_cons, ih, List.flatMap_cons, List.append_assoc]

theorem expandCards_eq_flatMap (rarityCounts : RarityCounts) (cards : List Card) :
    expandCards rarityCounts cards
      = cards.flatMap
          (fun card =>
            List.replicate (loopPasses (expansionCount rarityCounts card)) card) := by
  simpa [expandCards] using
    foldl_append_replicate (fun card => loopPasses (expansionCount rarityCounts card)) cards []

theorem get_rarityKey (rarityCounts : RarityCounts) (card : Card) :
    rarityCounts.get (rarityKey card)
      = rarityCounts.get (toLowerCase (card.rarity.getD "unknown")) := by
  rcases card with ⟨name, rarity, number⟩
  cases rarity with
  | none => rfl
  | some r =>
    by_cases hr : r = ""
    · subst hr
      simp only [rarityKey, if_true, Option.getD_some]
      have h1 : toLowerCase "unknown" = "unknown" := by decide
      have h2 : toLowerCase "" = "" := by decide
      rw [h1, h2]
      simp [RarityCounts.get, inheritedKeys]
    · simp [rarityKey, hr]

theorem loopPasses_eq_spec (rarityCounts : RarityCounts) (card : Card)
    (hpos : 0 < rarityCounts.mythic ∧ 0 < rarityCounts.rare ∧ 0 < rarityCounts.uncommon ∧
      0 < rarityCounts.common)
    (hkey : rarityKey card ∉ inheritedKeys) :
    loopPasses (expansionCount rarityCounts card)
      = (specExpansionCount rarityCounts card).toNat := by
  obtain ⟨h1, h2, h3, h4⟩ := hpos
  have e1 : rarityCounts.mythic ≠ 0 := by omega
  have e2 : rarityCounts.rare ≠ 0 := by omega
  have e3 : rarityCounts.uncommon ≠ 0 := by omega
  have e4 : rarityCounts.common ≠ 0 := by omega
  unfold expansionCount specExpansionCount
  rw [← get_rarityKey]
  unfold RarityCounts.get
  split_ifs
  · simp [loopPasses, e1]
  · simp [loopPasses, e2]
  · simp [loopPasses, e3]
  · simp [loopPasses, e4]
  · simp [loopPasses]

/-- The expansion on card arrays in which no lower-cased rarity names an inherited key: with
positive counts the expanded sequence is the concatenation, in input order, of `n` contiguous
copies of each card, `n` being the count of the specification; its length is the sum of
these `n`. -/
theorem expandCards_of_plain_rarities (rarityCounts : RarityCounts) (cards : List Card)
    (hpos : 0 < rarityCounts.mythic ∧ 0 < rarityCounts.rare ∧ 0 < rarityCounts.uncommon ∧
      0 < rarityCounts.common)
    (hkeys : ∀ card ∈ cards, rarityKey card ∉ inheritedKeys) :
    expandCards rarityCounts cards
      = cards.flatMap
          (fun card => List.replicate (specExpansionCount rarityCounts card).toNat card) ∧
    (expandCards rarityCounts cards).length
      = (cards.map (fun card => (specExpansionCount rarityCounts card).toNat)).sum := by
  have h : expandCards rarityCounts cards
      = cards.flatMap
          (fun card => List.replicate (specExpansionCount rarityCounts card).toNat card) := by
    rw [expandCards_eq_flatMap]
    apply List.flatMap_congr
    intro card hc
    rw [loopPasses_eq_spec rarityCounts card hpos (hkeys card hc)]
  refine ⟨h, ?_⟩
  rw [h, List.length_flatMap]
  congr 1
  apply List.map_congr_left
  intro card _
  simp

/-- The expansion with counts 2, 1, 3, 1 of an uncommon card, a card of unmapped rarity and
a card without rarity. -/
theorem expandCards_of_plain_rarities_example :
    expandCards { mythic := 2, rare := 1, uncommon := 3, common := 1 }
      [{ name := "A", rarity := some "Uncommon", collector_number := "7" },
       { name := "B", rarity := some "special", collector_number := "8" },
       { name := "C", rarity := none, collector_number := "9" }]
      = [{ name := "A", rarity := some "Uncommon", collector_number := "7" },
         { name := "A", rarity := some "Uncommon", collector_number := "7" },
         { name := "A", rarity := some "Uncommon", collector_number := "7" },
         { name := "B", rarity := some "special", collector_number := "8" },
         { name := "C", rarity := none, collector_number := "9" }] :=
  ((expandCards_of_plain_rarities { mythic := 2, rare := 1, uncommon := 3, common := 1 }
    [{ name := "A", rarity := some "Uncommon", collector_number := "7" },
     { name := "B", rarity := some "special", collector_number := "8" },
     { name := "C", rarity := none, collector_number := "9" }]
    (by decide) (by decide)).1).trans (by decide)

/-- C4, failing input: with all counts 1, a card whose rarity is `constructor` is not mapped
in `rarityCounts`, so the specification counts it once; but `rarityCounts["constructor"]` is
the function inherited from `Object.prototype`, which is truthy, so `|| 1` keeps it, `0 <
count` is false and the card is pushed zero times.  The same holds for `__proto__` and for
other spellings of the case.  The 3 mythic, 2 rare and 1 card without rarity of the
specification expand to 6 cards. -/
theorem expandCards_inherited_rarity :
    RarityCounts.get { mythic := 1, rare := 1, uncommon := 1, common := 1 } "constructor"
      = Property.inherited ∧
    specExpansionCount { mythic := 1, rare := 1, uncommon := 1, common := 1 }
      { name := "Karn", rarity := some "constructor", collector_number := "1" } = 1 ∧
    expandCards { mythic := 1, rare := 1, uncommon := 1, common := 1 }
      [{ name := "Karn", rarity := some "constructor", collector_number := "1" }] = [] ∧
    expandCards { mythic := 1, rare := 1, uncommon := 1, common := 1 }
      [{ name := "Opt", rarity := some "common", collector_number := "1" },
       { name := "Karn", rarity := some "Constructor", collector_number := "2" },
       { name := "Ugin", rarity := some "__proto__", collector_number := "3" },
       { name := "Shock", rarity := some "rare", collector_number := "4" }]
      = [{ name := "Opt", rarity := some "common", collector_number := "1" },
         { name := "Shock", rarity := some "rare", collector_number := "4" }] ∧
    (expandCards { mythic := 1, rare := 1, uncommon := 1, common := 1 }
      [{ name := "A", rarity := some "mythic", collector_number := "1" },
       { name := "B", rarity := some "mythic", collector_number := "2" },
       { name := "C", rarity := some "mythic", collector_number := "3" },
       { name := "D", rarity := some "rare", collector_number := "4" },
       { name := "E", rarity := some "rare", collector_number := "5" },
       { name := "F", rarity := none, collector_number := "6" }]).length = 6 := by
  decide

/-! ## Theorems: sort by collector number -/

theorem comparator_le_iff (a b : Card) (na nb : Int)
    (ha : parseInt a.collector_number = some na) (hb : parseInt b.collector_number = some nb) :
    comparator a b ≤ 0 ↔ na ≤ nb := by
  simp only [comparator, compareCollectorNumbers, ha, hb]
  omega

theorem pairwise_orderedInsert (a : Card) (l : List Card)
    (ha : (parseInt a.collector_number).isSome)
    (hl : ∀ c ∈ l, (parseInt c.collector_number).isSome)
    (hs : l.Pairwise NumericLE) :
    (l.orderedInsert (fun a b => comparator a b ≤ 0) a).Pairwise NumericLE := by
  obtain ⟨na, hna⟩ := Option.isSome_iff_exists.mp ha
  induction l with
  | nil => simp
  | cons b t ih =>
    obtain ⟨nb, hnb⟩ := Option.isSome_iff_exists.mp (hl b (List.mem_cons_self b t))
    have hbt := List.pairwise_cons.mp hs
    simp only [List.orderedInsert]
    split_ifs with h
    · have hab : na ≤ nb := (comparator_le_iff a b na nb hna hnb).mp h
      refine List.pairwise_cons.mpr ⟨?_, hs⟩
      intro x hx
      rcases List.mem_cons.mp hx with rfl | hx
      · exact ⟨na, nb, hna, hnb, hab⟩
      · obtain ⟨nb2, nx, h1, h2, h3⟩ := hbt.1 x hx
        rw [hnb] at h1
        cases h1
        exact ⟨na, nx, hna, h2, le_trans hab h3⟩
    · have hba : nb ≤ na := by
        have := (comparator_le_iff a b na nb hna hnb).not.mp h
        omega
      refine List.pairwise_cons.mpr ⟨?_, ih (fun c hc => hl c (List.mem_cons_of_mem b hc)) hbt.2⟩
      intro x hx
      rcases (List.mem_orderedInsert _).mp hx with rfl | hx
      · exact ⟨nb, na, hnb, hna, hba⟩
      · exact hbt.1 x hx

theorem sortCards_perm (l : List Card) : (sortCards l).Perm l :=
  List.perm_insertionSort _ l

theorem sortCards_pairwise (l : List Card)
    (hl : ∀ c ∈ l, (parseInt c.collector_number).isSome) :
    (sortCards l).Pairwise NumericLE := by
  induction l with
  | nil => simp [sortCards]
  | cons a t ih =>
    have ht : ∀ c ∈ t, (parseInt c.collector_number).isSome :=
      fun c hc => hl c (List.mem_cons_of_mem a hc)
    have hmem : ∀ c ∈ sortCards t, (parseInt c.collector_number).isSome :=
      fun c hc => ht c ((sortCards_perm t).subset hc)
    exact pairwise_orderedInsert a (sortCards t) (hl a (List.mem_cons_self a t)) hmem (ih ht)

/-- C5: when every collector number of the expanded sequence parses as an integer, the sort
step returns a permutation of the sequence in which each card's parsed collector number is at
most that of every later card; the collector numbers 10, 2, 1 are sorted to 1, 2, 10. -/
theorem sortCards_sorted (expandedCards : List Card)
    (hparse : ∀ c ∈ expandedCards, (parseInt c.collector_number).isSome) :
    (sortCards expandedCards).Perm expandedCards ∧
    (sortCards expandedCards).Pairwise
      (fun a b => ∃ na nb : Int, parseInt a.collector_number = some na ∧
        parseInt b.collector_number = some nb ∧ na ≤ nb) ∧
    (sortCards
      [{ name := "A", rarity := some "rare", collector_number := "10" },
       { name := "B", rarity := some "rare", collector_number := "2" },
       { name := "C", rarity := some "rare", collector_number := "1" }]).map
      (fun c => c.collector_number) = ["1", "2", "10"] :=
  ⟨sortCards_perm expandedCards, sortCards_pairwise expandedCards hparse, by decide⟩

/-- C5, witness: the sort of the collector numbers 10, 2, 1, 2. -/
theorem sortCards_sorted_witness :
    (sortCards
      [{ name := "A", rarity := none, collector_number := "10" },
       { name := "B", rarity := none, collector_number := "2" },
       { name := "C", rarity := none, collector_number := "1" },
       { name := "D", rarity := none, collector_number := "2" }]).Perm
      [{ name := "A", rarity := none, collector_number := "10" },
       { name := "B", rarity := none, collector_number := "2" },
       { name := "C", rarity := none, collector_number := "1" },
       { name := "D", rarity := none, collector_number := "2" }] :=
  (sortCards_sorted
    [{ name := "A", rarity := none, collector_number := "10" },
     { name := "B", rarity := none, collector_number := "2" },
     { name := "C", rarity := none, collector_number := "1" },
     { name := "D", rarity := none, collector_number := "2" }]
    (by decide)).1

/-! ## Theorems: the comparator as an order -/

theorem compareChars_self (a : List Char) : compareChars a a = 0 := by
  induction a with
  | nil => rfl
  | cons x xs ih => simp [compareChars, ih]

theorem compareChars_total (a b : List Char) :
    compareChars a b ≤ 0 ∨ compareChars b a ≤ 0 := by
  induction a generalizing b with
  | nil => cases b <;> simp [compareChars]
  | cons x xs ih =>
    cases b with
    | nil => simp [compareChars]
    | cons y ys =>
      simp only [compareChars]
      split_ifs <;> first | omega | exact ih ys

theorem compareChars_trans (a b c : List Char)
    (hab : compareChars a b ≤ 0) (hbc : compareChars b c ≤ 0) : compareChars a c ≤ 0 := by
  induction a generalizing b c with
  | nil => cases c <;> simp [compareChars]
  | cons x xs ih =>
    cases b with
    | nil => simp [compareChars] at hab
    | cons y ys =>
      cases c with
      | nil => simp [compareChars] at hbc
      | cons z zs =>
        simp only [compareChars] at hab hbc ⊢
        split_ifs at hab hbc ⊢ <;> first | omega | exact ih ys zs hab hbc

theorem compareCollectorNumbers_self (a : String) : compareCollectorNumbers a a = 0 := by
  unfold compareCollectorNumbers
  cases parseInt a with
  | none => exact compareChars_self a.data
  | some n => simp

theorem compareCollectorNumbers_total (a b : String) :
    compareCollectorNumbers a b ≤ 0 ∨ compareCollectorNumbers b a ≤ 0 := by
  unfold compareCollectorNumbers
  cases parseInt a <;> cases parseInt b <;> simp only [localeCompare]
  · exact compareChars_total _ _
  · exact compareChars_total _ _
  · exact compareChars_total _ _
  · omega

theorem compareCollectorNumbers_trans (a b c : String)
    (h : ((parseInt a).isSome ∧ (parseInt b).isSome ∧ (parseInt c).isSome) ∨
      ((parseInt a).isNone ∧ (parseInt b).isNone) ∨
      ((parseInt a).isNone ∧ (parseInt c).isNone) ∨
      ((parseInt b).isNone ∧ (parseInt c).isNone))
    (hab : compareCollectorNumbers a b ≤ 0) (hbc : compareCollectorNumbers b c ≤ 0) :
    compareCollectorNumbers a c ≤ 0 := by
  unfold compareCollectorNumbers at hab hbc ⊢
  cases ha : parseInt a <;> cases hb : parseInt b <;> cases hc : parseInt c <;>
    simp only [ha, hb, hc, localeCompare] at hab hbc h ⊢ <;>
    first
    | exact compareChars_trans _ _ _ hab hbc
    | omega
    | simp at h

/-- C6, counterexample: `+10` and `9` parse as integers and `+a` does not; the comparator
puts `+10` before `+a` and `+a` before `9` (both by the string comparison) but `+10` after `9`
(by the numeric difference 1), so it is not transitive. -/
theorem comparator_not_transitive_counterexample :
    compareCollectorNumbers "+10" "+a" ≤ 0 ∧ compareCollectorNumbers "+a" "9" ≤ 0 ∧
    ¬ (compareCollectorNumbers "+10" "9" ≤ 0) ∧
    parseInt "+10" = some 10 ∧ parseInt "+a" = none ∧ parseInt "9" = some 9 := by
  decide

/-- C6, amended: the comparator is reflexive (`cmp(a,a) = 0`) and total for all collector
numbers, and it is transitive on every triple in which all three collector numbers parse as
integers or at most one of them does. -/
theorem comparator_order (a b c : String) :
    compareCollectorNumbers a a = 0 ∧
    (compareCollectorNumbers a b ≤ 0 ∨ compareCollectorNumbers b a ≤ 0) ∧
    (((parseInt a).isSome ∧ (parseInt b).isSome ∧ (parseInt c).isSome) ∨
        ((parseInt a).isNone ∧ (parseInt b).isNone) ∨
        ((parseInt a).isNone ∧ (parseInt c).isNone) ∨
        ((parseInt b).isNone ∧ (parseInt c).isNone) →
      compareCollectorNumbers a b ≤ 0 → compareCollectorNumbers b c ≤ 0 →
      compareCollectorNumbers a c ≤ 0) :=
  ⟨compareCollectorNumbers_self a, compareCollectorNumbers_total a b,
    compareCollectorNumbers_trans a b c⟩

/-- C6, witness: transitivity on the parseable triple 2, 10, 11 and on the triple 7, a1, b of
which only the first parses. -/
theorem comparator_order_witness :
    compareCollectorNumbers "2" "11" ≤ 0 ∧ compareCollectorNumbers "7" "b" ≤ 0 :=
  ⟨(comparator_order "2" "10" "11").2.2 (Or.inl (by decide)) (by decide) (by decide),
    (comparator_order "7" "a1" "b").2.2 (Or.inr (Or.inr (Or.inr (by decide))))
      (by decide) (by decide)⟩

/-! ## Theorems: collector numbers with a numeric start -/

theorem isRadixDigit_ten_iff (c : Char) :
    isRadixDigit 10 c = true ↔ 48 ≤ c.toNat ∧ c.toNat ≤ 57 := by
  unfold isRadixDigit digitValue
  split_ifs with h1 h2 h3 <;> simp <;> omega

theorem not_whiteSpace_of_digit (c : Char) (h : isRadixDigit 10 c = true) :
    isStrWhiteSpaceChar c = false := by
  have := (isRadixDigit_ten_iff c).mp h
  simp [isStrWhiteSpaceChar]
  omega

theorem parseIntSign_cons_digit (d : Char) (tail : List Char) (hd : isRadixDigit 10 d = true) :
    parseIntSign (d :: tail) = 1 := by
  have hr := (isRadixDigit_ten_iff d).mp hd
  unfold parseIntSign
  split
  · rename_i h
    simp only [List.cons.injEq] at h
    obtain ⟨rfl, _⟩ := h
    exact absurd hr (by decide)
  · rfl

theorem dropSign_cons_digit (d : Char) (tail : List Char) (hd : isRadixDigit 10 d = true) :
    dropSign (d :: tail) = d :: tail := by
  have hr := (isRadixDigit_ten_iff d).mp hd
  unfold dropSign
  split
  · rename_i h
    simp only [List.cons.injEq] at h
    obtain ⟨rfl, _⟩ := h
    exact absurd hr (by decide)
  · rename_i h
    simp only [List.cons.injEq] at h
    obtain ⟨rfl, _⟩ := h
    exact absurd hr (by decide)
  · rfl

theorem radixAndRest_cons (d : Char) (tail : List Char)
    (hx : ¬ (d = '0' ∧ (tail.head? = some 'x' ∨ tail.head? = some 'X'))) :
    radixAndRest (d :: tail) = (10, d :: tail) := by
  unfold radixAndRest
  split
  · rename_i h
    simp only [List.cons.injEq] at h
    obtain ⟨rfl, rfl⟩ := h
    simp at hx
  · rename_i h
    simp only [List.cons.injEq] at h
    obtain ⟨rfl, rfl⟩ := h
    simp at hx
  · rfl

theorem parseInt_cons_digit (d : Char) (tail : List Char) (hd : isRadixDigit 10 d = true)
    (hx : ¬ (d = '0' ∧ (tail.head? = some 'x' ∨ tail.head? = some 'X'))) :
    parseInt (String.mk (d :: tail))
      = some (mathInt 10 ((d :: tail).takeWhile (isRadixDigit 10)) : Int) := by
  have hws := not_whiteSpace_of_digit d hd
  unfold parseInt
  simp only [List.dropWhile, hws, parseIntSign_cons_digit d tail hd,
    dropSign_cons_digit d tail hd, radixAndRest_cons d tail hx, List.takeWhile, hd]
  simp

theorem takeWhile_digits_append (digits rest : List Char)
    (hd : ∀ c ∈ digits, isRadixDigit 10 c = true)
    (hr : ∀ c, rest.head? = some c → isRadixDigit 10 c = false) :
    (digits ++ rest).takeWhile (isRadixDigit 10) = digits := by
  induction digits with
  | nil =>
    cases rest with
    | nil => rfl
    | cons c cs => simp [List.takeWhile, hr c rfl]
  | cons d ds ih =>
    have h1 := hd d (List.mem_cons_self d ds)
    rw [List.cons_append, List.takeWhile_cons, h1, if_pos rfl,
      ih (fun c hc => hd c (List.mem_cons_of_mem d hc))]

theorem parseInt_digits_append (digits rest : List Char) (hne : digits ≠ [])
    (hd : ∀ c ∈ digits, isRadixDigit 10 c = true)
    (hr : ∀ c, rest.head? = some c → isRadixDigit 10 c = false)
    (hx : ¬ (digits = ['0'] ∧ (rest.head? = some 'x' ∨ rest.head? = some 'X'))) :
    parseInt (String.mk (digits ++ rest)) = some (mathInt 10 digits : Int) := by
  cases digits with
  | nil => exact absurd rfl hne
  | cons d ds =>
    have h1 := hd d (List.mem_cons_self d ds)
    have hx2 : ¬ (d = '0' ∧ ((ds ++ rest).head? = some 'x' ∨ (ds ++ rest).head? = some 'X')) := by
      rintro ⟨rfl, h⟩
      cases ds with
      | nil => exact hx ⟨rfl, by simpa using h⟩
      | cons e es =>
        have h2 := hd e (by simp)
        simp only [List.cons_append, List.head?_cons, Option.some.injEq] at h
        rcases h with rfl | rfl <;> exact absurd h2 (by decide)
    rw [List.cons_append, parseInt_cons_digit d (ds ++ rest) h1 hx2, ← List.cons_append,
      takeWhile_digits_append (d :: ds) rest hd hr]

theorem isRadixDigit_of_isDigit (c : Char) (h : c.isDigit = true) :
    isRadixDigit 10 c = true := by
  simp only [Char.isDigit, Bool.and_eq_true, decide_eq_true_eq, ge_iff_le, UInt32.le_def,
    BitVec.le_def] at h
  exact (isRadixDigit_ten_iff c).mpr h

theorem not_isRadixDigit_of_isAlpha (c : Char) (h : c.isAlpha = true) :
    isRadixDigit 10 c = false := by
  simp only [Char.isAlpha, Char.isUpper, Char.isLower, Bool.or_eq_true, Bool.and_eq_true,
    decide_eq_true_eq, ge_iff_le, UInt32.le_def, BitVec.le_def] at h
  have h2 : (65 ≤ c.toNat ∧ c.toNat ≤ 90) ∨ (97 ≤ c.toNat ∧ c.toNat ≤ 122) := h
  cases hc : isRadixDigit 10 c with
  | false => rfl
  | true =>
    have := (isRadixDigit_ten_iff c).mp hc
    omega

/-- C7, counterexample: `parseInt` reads `4a` as 4, so for the pair `4a` and `4` the
comparator takes the numeric branch and returns 0: `4` is not ordered strictly before `4a`. -/
theorem comparator_4a_counterexample :
    parseInt "4a" = some 4 ∧ numericBranch "4a" "4" = true ∧
    compareCollectorNumbers "4" "4a" = 0 ∧ ¬ (compareCollectorNumbers "4" "4a" < 0) := by
  decide

/-- C7, amended: a collector number made of one or more decimal digits followed by letters,
other than one starting with the prefix `0x` or `0X`, parses as the integer written by its
digits; against the collector number made of the same digits the comparator takes the numeric
branch and returns 0 in both directions.  For the pair `4a` and `4` the branch is the numeric
one and the result is 0. -/
theorem comparator_digits_then_letters (digits letters : List Char) (hne : digits ≠ [])
    (hd : ∀ c ∈ digits, c.isDigit = true) (hl : ∀ c ∈ letters, c.isAlpha = true)
    (hx : ¬ (digits = ['0'] ∧ (letters.head? = some 'x' ∨ letters.head? = some 'X'))) :
    parseInt (String.mk (digits ++ letters)) = some (mathInt 10 digits : Int) ∧
    parseInt (String.mk digits) = some (mathInt 10 digits : Int) ∧
    numericBranch (String.mk (digits ++ letters)) (String.mk digits) = true ∧
    compareCollectorNumbers (String.mk (digits ++ letters)) (String.mk digits) = 0 ∧
    compareCollectorNumbers (String.mk digits) (String.mk (digits ++ letters)) = 0 ∧
    (numericBranch "4a" "4" = true ∧ compareCollectorNumbers "4a" "4" = 0 ∧
      compareCollectorNumbers "4" "4a" = 0) := by
  have hd2 : ∀ c ∈ digits, isRadixDigit 10 c = true :=
    fun c hc => isRadixDigit_of_isDigit c (hd c hc)
  have hl2 : ∀ c, letters.head? = some c → isRadixDigit 10 c = false :=
    fun c hc => not_isRadixDigit_of_isAlpha c (hl c (List.mem_of_mem_head? hc))
  have h1 := parseInt_digits_append digits letters hne hd2 hl2 hx
  have h2 : parseInt (String.mk digits) = some (mathInt 10 digits : Int) := by
    have := parseInt_digits_append digits [] hne hd2 (by simp) (by simp)
    simpa using this
  refine ⟨h1, h2, ?_, ?_, ?_, by decide⟩
  · simp [numericBranch, h1, h2]
  · simp [compareCollectorNumbers, h1, h2]
  · simp [compareCollectorNumbers, h1, h2]

/-- C7, witness: the collector number `142a` against `142`. -/
theorem comparator_digits_then_letters_witness :
    parseInt "142a" = some 142 ∧ compareCollectorNumbers "142a" "142" = 0 :=
  ⟨((comparator_digits_then_letters ['1', '4', '2'] ['a'] (by decide) (by decide) (by decide)
      (by decide)).1).trans (by decide),
    (comparator_digits_then_letters ['1', '4', '2'] ['a'] (by decide) (by decide) (by decide)
      (by decide)).2.2.2.1⟩

/-- Two inputs on which `parseInt` treats a leading `0x` as the hexadecimal prefix: the digit 0
followed by the letter x alone does not parse, and `0x1f` parses as 31. -/
theorem parseInt_hex_examples : parseInt "0x" = none ∧ parseInt "0x1f" = some 31 := by
  decide

/-! ## Theorems: the grid loop -/

theorem rarityLabels_ne_inherited (r : String) (hr : r ∉ inheritedKeys) :
    rarityLabels r ≠ Property.inherited := by
  unfold rarityLabels
  split_ifs <;> simp

theorem renderCell_of_rarity (columns rows idx : Nat) (card : Card) (r : String)
    (h : card.rarity = some r) (hr : r ∉ inheritedKeys) :
    ∃ cell, renderCell columns rows idx card = some cell := by
  have hne := rarityLabels_ne_inherited r hr
  unfold renderCell rarityLabel
  rw [h]
  simp only
  split
  · rename_i h2
    split at h2
    · split at h2 <;> simp at h2
    · simp at h2
    · rename_i h3
      exact absurd h3 hne
  · exact ⟨_, rfl⟩

theorem renderCell_fields (columns rows idx : Nat) (card : Card) (cell : Cell)
    (h : renderCell columns rows idx card = some cell) :
    cell.col_class = col_class columns idx ∧
    cell.row_class = row_class columns rows idx ∧
    cell.page_break_class = page_break_class columns rows idx ∧
    cell.name = _escapeHTML card.name ∧
    cell.collector_number = _escapeHTML card.collector_number ∧
    ∃ label, rarityLabel card = some label ∧ cell.rarityLabel = _escapeHTML label := by
  unfold renderCell at h
  split at h
  · simp at h
  · rename_i label hl
    simp only [Option.some.injEq] at h
    subst h
    exact ⟨rfl, rfl, rfl, rfl, rfl, label, hl, rfl⟩

theorem renderGrid_getElem? (columns rows : Nat) (cards : List Card) (start i : Nat)
    (cell : Cell) (h : (renderGrid columns rows start cards).cells[i]? = some cell) :
    ∃ card, cards[i]? = some card ∧ renderCell columns rows (start + i) card = some cell := by
  induction cards generalizing start i with
  | nil => simp [renderGrid] at h
  | cons c cs ih =>
    unfold renderGrid at h
    split at h
    · simp at h
    · rename_i cell0 hc
      cases i with
      | zero =>
        simp only [List.getElem?_cons_zero, Option.some.injEq] at h
        subst h
        exact ⟨c, by simp, hc⟩
      | succ j =>
        simp only [List.getElem?_cons_succ] at h
        obtain ⟨card, h1, h2⟩ := ih (start + 1) j h
        refine ⟨card, by simpa using h1, ?_⟩
        rw [← h2]
        congr 1
        omega

theorem renderGrid_complete (columns rows : Nat) (cards : List Card) (start : Nat)
    (hr : ∀ c ∈ cards, ∃ r, c.rarity = some r ∧ r ∉ inheritedKeys) :
    (renderGrid columns rows start cards).threw = false ∧
    (renderGrid columns rows start cards).cells.length = cards.length ∧
    ∀ i card, cards[i]? = some card →
      ∃ cell, (renderGrid columns rows start cards).cells[i]? = some cell ∧
        renderCell columns rows (start + i) card = some cell := by
  induction cards generalizing start with
  | nil => simp [renderGrid]
  | cons c cs ih =>
    obtain ⟨r, hrc, hrk⟩ := hr c (List.mem_cons_self c cs)
    obtain ⟨cell0, hcell⟩ := renderCell_of_rarity columns rows start c r hrc hrk
    obtain ⟨h1, h2, h3⟩ := ih (start + 1) (fun x hx => hr x (List.mem_cons_of_mem c hx))
    unfold renderGrid
    rw [hcell]
    refine ⟨h1, by simp [h2], ?_⟩
    intro i card hi
    cases i with
    | zero =>
      simp only [List.getElem?_cons_zero, Option.some.injEq] at hi
      subst hi
      exact ⟨cell0, by simp, hcell⟩
    | succ j =>
      simp only [List.getElem?_cons_succ] at hi
      obtain ⟨cell, h4, h5⟩ := h3 j card hi
      refine ⟨cell, by simpa using h4, ?_⟩
      rw [← h5]
      congr 1
      omega

/-- C8, failing input: on a card array holding one card without rarity, `_renderCards` (4
columns, 4 rows, all counts 1) expands the card once, and the grid loop raises a `TypeError`
at `card.rarity.charAt` before appending a cell for it: no cell when the card is alone, one
cell (for the card sorted before it) when a second card precedes it.  On the empty array the
result is the empty list of cells and no error. -/
theorem renderGrid_absent_rarity_throws :
    _renderCards
      { marginTop := none, marginRight := none, marginBottom := none, marginLeft := none,
        mythic := "1", rare := "1", uncommon := "1", common := "1",
        columns := "4", rows := "4" }
      (some [{ name := "Black Lotus", rarity := none, collector_number := "1" }])
      = some { cells := [], threw := true } ∧
    _renderCards
      { marginTop := none, marginRight := none, marginBottom := none, marginLeft := none,
        mythic := "1", rare := "1", uncommon := "1", common := "1",
        columns := "4", rows := "4" }
      (some [{ name := "Black Lotus", rarity := none, collector_number := "3" },
             { name := "Opt", rarity := some "common", collector_number := "2" }])
      = some
        { cells :=
            [{ col_class := "first-column", row_class := "first-row", page_break_class := "",
               name := "Opt", rarityLabel := "C", collector_number := "2" }],
          threw := true } ∧
    _renderCards
      { marginTop := none, marginRight := none, marginBottom := none, marginLeft := none,
        mythic := "1", rare := "1", uncommon := "1", common := "1",
        columns := "4", rows := "4" }
      (some []) = some { cells := [], threw := false } := by
  decide

theorem succ_mod_eq_zero_iff (n idx : Nat) :
    (idx + 1) % n = 0 ↔ (idx + 1) / n ≠ idx / n := by
  rw [Nat.succ_div]
  split_ifs with h
  · simp [Nat.mod_eq_zero_of_dvd h]
  · simp only [add_zero, ne_eq, not_true_eq_false, iff_false]
    exact fun hmod => h (Nat.dvd_of_mod_eq_zero hmod)

theorem page_break_class_eq (columns rows idx : Nat) :
    page_break_class columns rows idx = "page-break" ↔ (idx + 1) % (rows * columns) = 0 := by
  unfold page_break_class
  split_ifs with h
  · simp [h]
  · simp only [h, iff_false]
    decide

/-- C9: for all columns and rows (in particular in [1,8]) and every index `idx`, the cell
that the grid loop appends at position `idx` carries the page-break class exactly when
`(idx+1) mod (rows*columns) = 0`, and that holds exactly when `idx` is the last index of its
page: `floor((idx+1)/(rows*columns))` differs from `floor(idx/(rows*columns))`. -/
theorem page_break_iff (columns rows idx : Nat) :
    (∀ (cards : List Card) (cell : Cell),
      (renderGrid columns rows 0 cards).cells[idx]? = some cell →
      (cell.page_break_class = "page-break" ↔ (idx + 1) % (rows * columns) = 0)) ∧
    (page_break_class columns rows idx = "page-break" ↔ (idx + 1) % (rows * columns) = 0) ∧
    ((idx + 1) % (rows * columns) = 0 ↔
      (idx + 1) / (rows * columns) ≠ idx / (rows * columns)) := by
  refine ⟨?_, page_break_class_eq columns rows idx, succ_mod_eq_zero_iff _ idx⟩
  intro cards cell h
  obtain ⟨card, _, h2⟩ := renderGrid_getElem? columns rows cards 0 idx cell h
  rw [(renderCell_fields columns rows (0 + idx) card cell h2).2.2.1, Nat.zero_add]
  exact page_break_class_eq columns rows idx

/-- C9, witness: 2 columns and 2 rows and four copies of a card; the cell at index 3 is the
last of its page. -/
theorem page_break_iff_witness :
    (renderGrid 2 2 0
      (List.replicate 4 { name := "Opt", rarity := some "common", collector_number := "2" })).cells[3]?
      = some { col_class := "last-column", row_class := "last-row",
               page_break_class := "page-break", name := "Opt", rarityLabel := "C",
               collector_number := "2" } ∧
    ("page-break" = "page-break" ↔ (3 + 1) % (2 * 2) = 0) :=
  ⟨by decide,
    (page_break_iff 2 2 3).1
      (List.replicate 4 { name := "Opt", rarity := some "common", collector_number := "2" })
      { col_class := "last-column", row_class := "last-row",
        page_break_class := "page-break", name := "Opt", rarityLabel := "C",
        collector_number := "2" }
      (by decide)⟩

theorem boundary_index_arith (columns rows k : Nat) (hcp : 1 < rows * columns) (hk : 1 ≤ k) :
    (k * (rows * columns) - 1 + 1) % (rows * columns) = 0 ∧
    (k * (rows * columns) + 1) % (rows * columns) ≠ 0 ∧
    col_idx columns (k * (rows * columns)) = 0 ∧
    row_idx columns rows (k * (rows * columns)) = 0 := by
  have hpos : 1 ≤ k * (rows * columns) := Nat.mul_pos hk (by omega)
  have hc : 0 < columns := by
    rcases Nat.eq_zero_or_pos columns with h | h
    · rw [h, Nat.mul_zero] at hcp
      omega
    · exact h
  refine ⟨?_, ?_, ?_, ?_⟩
  · rw [Nat.sub_add_cancel hpos, Nat.mul_mod_left]
  · rw [Nat.add_mod, Nat.mul_mod_left, Nat.zero_add, Nat.mod_mod, Nat.mod_eq_of_lt hcp]
    decide
  · unfold col_idx
    rw [← Nat.mul_assoc, Nat.mul_mod_left]
  · unfold row_idx
    rw [← Nat.mul_assoc, Nat.mul_div_cancel _ hc, Nat.mul_mod_left]

/-- C10: for all columns and rows with `rows*columns > 1` (in particular those in [1,8]) and
every `k ≥ 1`, the index
`k*rows*columns - 1` is flagged page-break, the index `k*rows*columns` is not, and the index
`k*rows*columns` has row 0 and column 0 and the classes first-row and first-column; the cells
that the grid loop appends at these positions carry these classes.  With 4 columns, 4 rows
and 17 cards, the cell at index 15 is flagged, the cell at index 16 is not and is
first-row and first-column. -/
theorem page_boundary (columns rows k : Nat) (hcp : 1 < rows * columns) (hk : 1 ≤ k) :
    page_break_class columns rows (k * (rows * columns) - 1) = "page-break" ∧
    page_break_class columns rows (k * (rows * columns)) = "" ∧
    col_idx columns (k * (rows * columns)) = 0 ∧
    row_idx columns rows (k * (rows * columns)) = 0 ∧
    col_class columns (k * (rows * columns)) = "first-column" ∧
    row_class columns rows (k * (rows * columns)) = "first-row" ∧
    (∀ (cards : List Card) (cell : Cell),
      (renderGrid columns rows 0 cards).cells[k * (rows * columns) - 1]? = some cell →
      cell.page_break_class = "page-break") ∧
    (∀ (cards : List Card) (cell : Cell),
      (renderGrid columns rows 0 cards).cells[k * (rows * columns)]? = some cell →
      cell.page_break_class = "" ∧ cell.col_class = "first-column" ∧
        cell.row_class = "first-row") ∧
    ((_renderCards
        { marginTop := none, marginRight := none, marginBottom := none, marginLeft := none,
          mythic := "1", rare := "1", uncommon := "1", common := "1",
          columns := "4", rows := "4" }
        (some (List.replicate 17
          { name := "Opt", rarity := some "common", collector_number := "2" }))).map
        (fun r => (r.threw, r.cells.length, r.cells.drop 15))
      = some (false, 17,
          [{ col_class := "last-column", row_class := "last-row",
             page_break_class := "page-break", name := "Opt", rarityLabel := "C",
             collector_number := "2" },
           { col_class := "first-column", row_class := "first-row",
             page_break_class := "", name := "Opt", rarityLabel := "C",
             collector_number := "2" }])) := by
  obtain ⟨h1, h2, h3, h4⟩ := boundary_index_arith columns rows k hcp hk
  have hpb : page_break_class columns rows (k * (rows * columns) - 1) = "page-break" :=
    (page_break_class_eq _ _ _).mpr h1
  have hnpb : page_break_class columns rows (k * (rows * columns)) = "" := by
    unfold page_break_class
    rw [if_neg h2]
  have hcol : col_class columns (k * (rows * columns)) = "first-column" := by
    unfold col_class
    rw [if_pos h3]
  have hrow : row_class columns rows (k * (rows * columns)) = "first-row" := by
    unfold row_class
    rw [if_pos h4]
  refine ⟨hpb, hnpb, h3, h4, hcol, hrow, ?_, ?_, by decide⟩
  · intro cards cell h
    obtain ⟨card, _, hcell⟩ := renderGrid_getElem? columns rows cards 0 _ cell h
    rw [(renderCell_fields _ _ _ card cell hcell).2.2.1, Nat.zero_add]
    exact hpb
  · intro cards cell h
    obtain ⟨card, _, hcell⟩ := renderGrid_getElem? columns rows cards 0 _ cell h
    obtain ⟨f1, f2, f3, _⟩ := renderCell_fields _ _ _ card cell hcell
    rw [Nat.zero_add] at f1 f2 f3
    exact ⟨f3.trans hnpb, f1.trans hcol, f2.trans hrow⟩

/-- C10, witness: 3 columns, 2 rows and the second page boundary (`k = 2`): index 11 is
flagged, index 12 is not and is first-row and first-column. -/
theorem page_boundary_witness :
    page_break_class 3 2 11 = "page-break" ∧ page_break_class 3 2 12 = "" ∧
    col_class 3 12 = "first-column" ∧ row_class 3 2 12 = "first-row" :=
  ⟨(page_boundary 3 2 2 (by decide) (by decide)).1,
    (page_boundary 3 2 2 (by decide) (by decide)).2.1,
    (page_boundary 3 2 2 (by decide) (by decide)).2.2.2.2.1,
    (page_boundary 3 2 2 (by decide) (by decide)).2.2.2.2.2.1⟩

/-! ## Theorems: classification repeats on every page -/

theorem col_idx_add_page (columns rows idx : Nat) :
    col_idx columns (idx + rows * columns) = col_idx columns idx := by
  unfold col_idx
  exact Nat.add_mul_mod_self_right idx rows columns

theorem row_idx_add_page (columns rows idx : Nat) (hc : 1 ≤ columns) :
    row_idx columns rows (idx + rows * columns) = row_idx columns rows idx := by
  unfold row_idx
  rw [Nat.add_mul_div_right _ _ hc, Nat.add_mod_right]

theorem col_class_add_page (columns rows idx : Nat) :
    col_class columns (idx + rows * columns) = col_class columns idx := by
  unfold col_class
  rw [col_idx_add_page]

theorem row_class_add_page (columns rows idx : Nat) (hc : 1 ≤ columns) :
    row_class columns rows (idx + rows * columns) = row_class columns rows idx := by
  unfold row_class
  rw [row_idx_add_page columns rows idx hc]

/-- C11: for at least one column (so for columns and rows in [1,8]) and every index `idx`,
the column class and the row class assigned to `idx + rows*columns` are those assigned to
`idx`; the cells that the grid loop appends at the two positions carry the same two
classes. -/
theorem classes_repeat_on_pages (columns rows idx : Nat) (hc : 1 ≤ columns) :
    col_class columns (idx + rows * columns) = col_class columns idx ∧
    row_class columns rows (idx + rows * columns) = row_class columns rows idx ∧
    (∀ (cards : List Card) (cell next : Cell),
      (renderGrid columns rows 0 cards).cells[idx]? = some cell →
      (renderGrid columns rows 0 cards).cells[idx + rows * columns]? = some next →
      next.col_class = cell.col_class ∧ next.row_class = cell.row_class) := by
  refine ⟨col_class_add_page columns rows idx, row_class_add_page columns rows idx hc, ?_⟩
  intro cards cell next h1 h2
  obtain ⟨c1, _, r1⟩ := renderGrid_getElem? columns rows cards 0 _ cell h1
  obtain ⟨c2, _, r2⟩ := renderGrid_getElem? columns rows cards 0 _ next h2
  obtain ⟨a1, a2, _⟩ := renderCell_fields _ _ _ c1 cell r1
  obtain ⟨b1, b2, _⟩ := renderCell_fields _ _ _ c2 next r2
  rw [Nat.zero_add] at a1 a2 b1 b2
  rw [a1, a2, b1, b2]
  exact ⟨col_class_add_page columns rows idx, row_class_add_page columns rows idx hc⟩

/-- C11, witness: 3 columns and 2 rows; index 4 and index 10, one page later, are both in the
middle column of the last row. -/
theorem classes_repeat_on_pages_witness :
    col_class 3 (4 + 2 * 3) = "middle-column" ∧ row_class 3 2 (4 + 2 * 3) = "last-row" :=
  ⟨((classes_repeat_on_pages 3 2 4 (by decide)).1).trans (by decide),
    ((classes_repeat_on_pages 3 2 4 (by decide)).2.1).trans (by decide)⟩

/-! ## Theorems: grid math -/

/-- C12: for every margin configuration at most one of `shimLeft` and `shimRight` is non-zero
and at most one of `shimTop` and `shimBottom` is non-zero: the products are 0. -/
theorem shim_exclusive (margins : Margins) :
    (shimLeft margins = 0 ∨ shimRight margins = 0) ∧
    (shimTop margins = 0 ∨ shimBottom margins = 0) ∧
    shimLeft margins * shimRight margins = 0 ∧
    shimTop margins * shimBottom margins = 0 := by
  have h1 : shimLeft margins = 0 ∨ shimRight margins = 0 := by
    unfold shimLeft shimRight
    by_cases h : margins.right > margins.left
    · right
      rw [if_neg (not_lt.mpr (le_of_lt h))]
    · left
      rw [if_neg h]
  have h2 : shimTop margins = 0 ∨ shimBottom margins = 0 := by
    unfold shimTop shimBottom
    by_cases h : margins.bottom > margins.top
    · right
      rw [if_neg (not_lt.mpr (le_of_lt h))]
    · left
      rw [if_neg h]
  exact ⟨h1, h2, mul_eq_zero.mpr h1, mul_eq_zero.mpr h2⟩

/-- Equal margins in exact rational arithmetic: with the same margin `m` on all four sides,
the four shims are 0, the first and the last column get the same width and the first and the
last row the same height, the interior paddings are `m/2`, and the middle column is wider
than an edge column by exactly `m/2` and the middle row higher than an edge row by exactly
`m/2`. -/
theorem equal_margins_exact (m : ℚ) (columns rows : Nat) :
    shimLeft { top := m, right := m, bottom := m, left := m } = 0 ∧
    shimRight { top := m, right := m, bottom := m, left := m } = 0 ∧
    shimTop { top := m, right := m, bottom := m, left := m } = 0 ∧
    shimBottom { top := m, right := m, bottom := m, left := m } = 0 ∧
    cssWidth { top := m, right := m, bottom := m, left := m } columns "first-column"
      = cssWidth { top := m, right := m, bottom := m, left := m } columns "last-column" ∧
    cssHeight { top := m, right := m, bottom := m, left := m } rows "first-row"
      = cssHeight { top := m, right := m, bottom := m, left := m } rows "last-row" ∧
    cardLeftRightPadding { top := m, right := m, bottom := m, left := m } = m / 2 ∧
    cardTopBottomPadding { top := m, right := m, bottom := m, left := m } = m / 2 ∧
    cssWidth { top := m, right := m, bottom := m, left := m } columns "middle-column"
      - cssWidth { top := m, right := m, bottom := m, left := m } columns "first-column"
      = m / 2 ∧
    cssHeight { top := m, right := m, bottom := m, left := m } rows "middle-row"
      - cssHeight { top := m, right := m, bottom := m, left := m } rows "first-row"
      = m / 2 := by
  refine ⟨?_, ?_, ?_, ?_, ?_, ?_, ?_, ?_, ?_, ?_⟩
  · simp [shimLeft]
  · simp [shimRight]
  · simp [shimTop]
  · simp [shimBottom]
  · simp [cssWidth]
  · simp [cssHeight]
  · simp [cardLeftRightPadding, visualLeftRightMargin]
  · simp [cardTopBottomPadding, visualTopBottomMargin]
  · simp only [cssWidth, cardWidthMiddle, cardWidthEdge, cardLeftRightPadding,
      visualLeftRightMargin, max_self]
    simp
    ring
  · simp only [cssHeight, cardHeightMiddle, cardHeightEdge, cardTopBottomPadding,
      visualTopBottomMargin, max_self]
    simp
    ring

theorem cardWidth_sum (margins : Margins) (columns : Nat) (hc : 1 ≤ columns) :
    2 * cardWidthEdge margins columns + ((columns : ℚ) - 2) * cardWidthMiddle margins columns
      = usableWidth margins := by
  have h : (columns : ℚ) ≠ 0 := by
    have : (1 : ℚ) ≤ columns := by exact_mod_cast hc
    linarith
  unfold cardWidthEdge cardWidthMiddle cardMarginlessWidth cardLeftRightPaddingCount
  field_simp
  ring

theorem cardHeight_sum (margins : Margins) (rows : Nat) (hr : 1 ≤ rows) :
    2 * cardHeightEdge margins rows + ((rows : ℚ) - 2) * cardHeightMiddle margins rows
      = usableHeight margins := by
  have h : (rows : ℚ) ≠ 0 := by
    have : (1 : ℚ) ≤ rows := by exact_mod_cast hr
    linarith
  unfold cardHeightEdge cardHeightMiddle cardMarginlessHeight cardTopBottomPaddingCount
  field_simp
  ring

theorem gridRowWidth_one (margins : Margins) :
    gridRowWidth margins 1 = usableWidth margins + cardLeftRightPadding margins := by
  simp [gridRowWidth, List.range_succ, col_class, col_idx, cssWidth, cardWidthEdge,
    cardMarginlessWidth, cardLeftRightPaddingCount]

theorem gridRowWidth_of_two_le (margins : Margins) (columns : Nat)
    (hc : 2 ≤ columns ∧ columns ≤ 8) : gridRowWidth margins columns = usableWidth margins := by
  obtain ⟨h2, h8⟩ := hc
  rw [← cardWidth_sum margins columns (by omega)]
  interval_cases columns <;>
    simp [gridRowWidth, List.range_succ, col_class, col_idx, cssWidth] <;> ring

theorem row_idx_mul (columns rows r : Nat) (hc : 1 ≤ columns) :
    row_idx columns rows (r * columns) = r % rows := by
  unfold row_idx
  rw [Nat.mul_div_cancel _ hc]

theorem gridColumnHeight_eq (margins : Margins) (columns rows : Nat) (hc : 1 ≤ columns) :
    gridColumnHeight margins columns rows
      = ((List.range rows).map
          (fun r => cssHeight margins rows
            (if r % rows = 0 then "first-row"
             else if r % rows = rows - 1 then "last-row" else "middle-row"))).sum := by
  unfold gridColumnHeight
  congr 2
  funext r
  unfold row_class
  rw [row_idx_mul columns rows r hc]

theorem gridColumnHeight_one (margins : Margins) (columns : Nat) (hc : 1 ≤ columns) :
    gridColumnHeight margins columns 1
      = usableHeight margins + cardTopBottomPadding margins := by
  rw [gridColumnHeight_eq margins columns 1 hc]
  simp [List.range_succ, cssHeight, cardHeightEdge, cardMarginlessHeight,
    cardTopBottomPaddingCount]

theorem gridColumnHeight_of_two_le (margins : Margins) (columns rows : Nat) (hc : 1 ≤ columns)
    (hr : 2 ≤ rows ∧ rows ≤ 8) :
    gridColumnHeight margins columns rows = usableHeight margins := by
  obtain ⟨h2, h8⟩ := hr
  rw [gridColumnHeight_eq margins columns rows hc, ← cardHeight_sum margins rows (by omega)]
  interval_cases rows <;> simp [List.range_succ, cssHeight] <;> ring

/-- C14: for columns and rows from 2 to 8 and every margin configuration, two edge widths and
`columns - 2` middle widths add up exactly to `8.5 - 2*max(left, right)`, two edge heights and
`rows - 2` middle heights add up exactly to `11 - 2*max(top, bottom)`, and these are the
totals of the widths of one full grid row and of the heights of one full grid column, each
cell taking the class the grid loop assigns to it. -/
theorem cell_sizes_add_up (margins : Margins) (columns rows : Nat)
    (hc : 2 ≤ columns ∧ columns ≤ 8) (hr : 2 ≤ rows ∧ rows ≤ 8) :
    2 * cardWidthEdge margins columns + ((columns : ℚ) - 2) * cardWidthMiddle margins columns
      = 17 / 2 - 2 * max margins.left margins.right ∧
    2 * cardHeightEdge margins rows + ((rows : ℚ) - 2) * cardHeightMiddle margins rows
      = 11 - 2 * max margins.top margins.bottom ∧
    gridRowWidth margins columns = 17 / 2 - 2 * max margins.left margins.right ∧
    gridColumnHeight margins columns rows = 11 - 2 * max margins.top margins.bottom := by
  have hc1 : 1 ≤ columns := by omega
  have hr1 : 1 ≤ rows := by omega
  refine ⟨?_, ?_, ?_, ?_⟩
  · rw [cardWidth_sum margins columns hc1]
    rfl
  · rw [cardHeight_sum margins rows hr1]
    rfl
  · rw [gridRowWidth_of_two_le margins columns hc]
    rfl
  · rw [gridColumnHeight_of_two_le margins columns rows hc1 hr]
    rfl

/-- C14, witness: margins 0.5, 0.25, 0.75, 0.3 (top, right, bottom, left) with 3 columns and
4 rows. -/
theorem cell_sizes_add_up_witness :
    gridRowWidth { top := 1 / 2, right := 1 / 4, bottom := 3 / 4, left := 3 / 10 } 3
      = 17 / 2 - 2 * max (3 / 10 : ℚ) (1 / 4) ∧
    gridColumnHeight { top := 1 / 2, right := 1 / 4, bottom := 3 / 4, left := 3 / 10 } 3 4
      = 11 - 2 * max (1 / 2 : ℚ) (3 / 4) :=
  ⟨(cell_sizes_add_up { top := 1 / 2, right := 1 / 4, bottom := 3 / 4, left := 3 / 10 } 3 4
      (by decide) (by decide)).2.2.1,
    (cell_sizes_add_up { top := 1 / 2, right := 1 / 4, bottom := 3 / 4, left := 3 / 10 } 3 4
      (by decide) (by decide)).2.2.2⟩

/-- C15, failing input: with the default margin 0.16 on the four sides and a single column,
the only cell of a grid row is classed first-column and gets the edge width, which is the
usable width 8.18 plus one padding 0.08: 8.26, more than the usable width and more than the
width 8.181 of the grid box.  With a single row the only cell of a grid column gets the
height 10.76, more than the usable height 10.68. -/
theorem single_column_exceeds_usable :
    col_class 1 0 = "first-column" ∧
    gridRowWidth { top := 4 / 25, right := 4 / 25, bottom := 4 / 25, left := 4 / 25 } 1
      = 413 / 50 ∧
    usableWidth { top := 4 / 25, right := 4 / 25, bottom := 4 / 25, left := 4 / 25 }
      = 409 / 50 ∧
    printableWidth { top := 4 / 25, right := 4 / 25, bottom := 4 / 25, left := 4 / 25 }
      = 8181 / 1000 ∧
    ¬ (gridRowWidth { top := 4 / 25, right := 4 / 25, bottom := 4 / 25, left := 4 / 25 } 1
        ≤ usableWidth { top := 4 / 25, right := 4 / 25, bottom := 4 / 25, left := 4 / 25 }) ∧
    gridColumnHeight { top := 4 / 25, right := 4 / 25, bottom := 4 / 25, left := 4 / 25 } 4 1
      = 269 / 25 ∧
    usableHeight { top := 4 / 25, right := 4 / 25, bottom := 4 / 25, left := 4 / 25 }
      = 267 / 25 ∧
    ¬ (gridColumnHeight { top := 4 / 25, right := 4 / 25, bottom := 4 / 25, left := 4 / 25 } 4 1
        ≤ usableHeight { top := 4 / 25, right := 4 / 25, bottom := 4 / 25, left := 4 / 25 }) := by
  refine ⟨by decide, ?_, ?_, ?_, ?_, ?_, ?_, ?_⟩
  · rw [gridRowWidth_one]
    norm_num [usableWidth, cardLeftRightPadding, visualLeftRightMargin, paperWidth]
  · norm_num [usableWidth, visualLeftRightMargin, paperWidth]
  · norm_num [printableWidth, paperWidth, stupidHack]
  · rw [gridRowWidth_one]
    norm_num [usableWidth, cardLeftRightPadding, visualLeftRightMargin, paperWidth]
  · rw [gridColumnHeight_one _ 4 (by decide)]
    norm_num [usableHeight, cardTopBottomPadding, visualTopBottomMargin, paperHeight]
  · norm_num [usableHeight, visualTopBottomMargin, paperHeight]
  · rw [gridColumnHeight_one _ 4 (by decide)]
    norm_num [usableHeight, cardTopBottomPadding, visualTopBottomMargin, paperHeight]

/-! ## Theorems: `loadCardList` -/

/-- C16, counterexample: handing a `cards` value that is not an array to `loadCardList`, with
a valid set code and set name, raises the error "Card list must be an array." -/
theorem loadCardList_throws_counterexample :
    loadCardList
      { marginTop := none, marginRight := none, marginBottom := none, marginLeft := none,
        mythic := "1", rare := "1", uncommon := "1", common := "1",
        columns := "4", rows := "4" }
      (some "lea") (some "Limited Edition Alpha") none false
      = LoadOutcome.threw "Card list must be an array." := by
  rfl

/-- C16, amended: for every `cards` value that is absent or not an array, `loadCardList`
raises the error "Card list must be an array." whatever its other arguments, so it does not
reach `_renderCards`; the result "No cards to display." is what `_renderCards` itself leaves
when `this._cards` is absent or not an array. -/
theorem loadCardList_not_array (inputs : Inputs) (setCode setName : Option String)
    (isPrintMode : Bool) :
    loadCardList inputs setCode setName none isPrintMode
      = LoadOutcome.threw "Card list must be an array." ∧
    _renderCards inputs none = none :=
  ⟨rfl, rfl⟩

/-! ## Theorems: cards without rarity, and rarity labels -/

theorem renderGrid_threw_of_absent_rarity (columns rows : Nat) (cards : List Card) (start : Nat)
    (h : ∃ c ∈ cards, c.rarity = none) : (renderGrid columns rows start cards).threw = true := by
  induction cards generalizing start with
  | nil => simp at h
  | cons c cs ih =>
    unfold renderGrid
    cases hc : renderCell columns rows start c with
    | none => rfl
    | some cell =>
      simp only
      apply ih
      obtain ⟨x, hx, hr⟩ := h
      rcases List.mem_cons.mp hx with rfl | hx
      · unfold renderCell rarityLabel at hc
        rw [hr] at hc
        simp at hc
      · exact ⟨x, hx, hr⟩

theorem expansionCount_of_absent_rarity (rarityCounts : RarityCounts) (card : Card)
    (h : card.rarity = none) :
    rarityKey card = "unknown" ∧ expansionCount rarityCounts card = Property.own 1 := by
  have hk : rarityKey card = "unknown" := by
    unfold rarityKey
    rw [h]
    decide
  refine ⟨hk, ?_⟩
  unfold expansionCount
  rw [hk]
  simp [RarityCounts.get, inheritedKeys]

theorem mem_expandCards_of_absent_rarity (rarityCounts : RarityCounts) (cards : List Card)
    (card : Card) (hm : card ∈ cards) (h : card.rarity = none) :
    card ∈ expandCards rarityCounts cards := by
  rw [expandCards_eq_flatMap, List.mem_flatMap]
  refine ⟨card, hm, ?_⟩
  rw [(expansionCount_of_absent_rarity rarityCounts card h).2]
  simp [loopPasses]

theorem _renderCards_threw_of_absent_rarity (inputs : Inputs) (cards : List Card)
    (h : ∃ c ∈ cards, c.rarity = none) :
    ∃ grid, _renderCards inputs (some cards) = some grid ∧ grid.threw = true := by
  obtain ⟨c, hc, hr⟩ := h
  refine ⟨_, rfl, ?_⟩
  apply renderGrid_threw_of_absent_rarity
  exact ⟨c, (sortCards_perm _).symm.subset
    (mem_expandCards_of_absent_rarity _ cards c hc hr), hr⟩

theorem rarityLabel_of_unmapped (card : Card) (r : String) (h : card.rarity = some r)
    (hl : rarityLabels r = Property.undefined) :
    rarityLabel card = some (toUpperCase (charAt0 r)) := by
  unfold rarityLabel
  rw [h]
  simp only
  rw [hl]

/-- C17, failing input: a card without rarity is bucketed under "unknown" and expanded exactly
once, but its label cannot be computed (`card.rarity.charAt` raises a `TypeError`), so
`_renderCards` on an array of three cards with such a card in second position appends the
first cell and raises.  A card of the unmapped rarity `legendary` is labelled `L`. -/
theorem absent_rarity_raises :
    rarityKey { name := "Black Lotus", rarity := none, collector_number := "2" } = "unknown" ∧
    expandCards { mythic := 1, rare := 1, uncommon := 1, common := 1 }
      [{ name := "Black Lotus", rarity := none, collector_number := "2" }]
      = [{ name := "Black Lotus", rarity := none, collector_number := "2" }] ∧
    rarityLabel { name := "Black Lotus", rarity := none, collector_number := "2" } = none ∧
    (_renderCards
      { marginTop := none, marginRight := none, marginBottom := none, marginLeft := none,
        mythic := "1", rare := "1", uncommon := "1", common := "1",
        columns := "4", rows := "4" }
      (some [{ name := "Opt", rarity := some "common", collector_number := "1" },
             { name := "Black Lotus", rarity := none, collector_number := "2" },
             { name := "Shock", rarity := some "common", collector_number := "3" }])).map
        (fun grid => (grid.threw, grid.cells.length)) = some (true, 1) ∧
    rarityLabel { name := "Karn", rarity := some "legendary", collector_number := "4" }
      = some "L" := by
  decide

/-! ## Theorems: page break and grid position -/

theorem last_position_arith (c r a b : Nat) (hb : b < c) (ha : a < r) :
    c * a + b + 1 = r * c ↔ b = c - 1 ∧ a = r - 1 := by
  constructor
  · intro h
    obtain ⟨d, rfl⟩ : ∃ d, r = a + 1 + d := ⟨r - (a + 1), by omega⟩
    have h2 : c * a + b + 1 = c * a + c + d * c := by rw [h]; ring
    have h3 : d * c = 0 := by omega
    have hd : d = 0 := by
      rcases Nat.mul_eq_zero.mp h3 with h4 | h4
      · exact h4
      · omega
    subst hd
    omega
  · rintro ⟨h1, h2⟩
    obtain ⟨c', rfl⟩ : ∃ c', c = c' + 1 := ⟨c - 1, by omega⟩
    obtain ⟨r', rfl⟩ : ∃ r', r = r' + 1 := ⟨r - 1, by omega⟩
    simp only [Nat.add_sub_cancel] at h1 h2
    subst h1 h2
    ring

theorem page_break_last_position (columns rows idx : Nat) (hc : 1 ≤ columns) (hr : 1 ≤ rows) :
    (idx + 1) % (rows * columns) = 0 ↔
      col_idx columns idx = columns - 1 ∧ row_idx columns rows idx = rows - 1 := by
  have hn : 0 < rows * columns := Nat.mul_pos hr hc
  have hm : idx % (rows * columns) < rows * columns := Nat.mod_lt _ hn
  have hcol : idx % (rows * columns) % columns = idx % columns := Nat.mod_mul_left_mod _ _ _
  have hrow : idx % (rows * columns) / columns = idx / columns % rows :=
    Nat.mod_mul_left_div_self _ _ _
  have hb : idx % columns < columns := Nat.mod_lt _ hc
  have ha : idx / columns % rows < rows := Nat.mod_lt _ hr
  have hdecomp : columns * (idx / columns % rows) + idx % columns = idx % (rows * columns) := by
    rw [← hcol, ← hrow]
    exact Nat.div_add_mod _ _
  have hstep : (idx + 1) % (rows * columns) = 0 ↔ idx % (rows * columns) + 1 = rows * columns := by
    rw [Nat.add_mod]
    constructor
    · intro h
      by_contra hne
      have hlt : idx % (rows * columns) + 1 < rows * columns := by omega
      have h1 : 1 % (rows * columns) = 1 := Nat.mod_eq_of_lt (by omega)
      rw [h1, Nat.mod_eq_of_lt hlt] at h
      omega
    · intro h
      rcases Nat.lt_or_ge 1 (rows * columns) with h2 | h2
      · rw [Nat.mod_eq_of_lt h2, h, Nat.mod_self]
      · have h3 : rows * columns = 1 := by omega
        rw [h3]
        simp [Nat.mod_one]
  unfold col_idx row_idx
  rw [hstep, ← hdecomp]
  exact last_position_arith columns rows _ _ hb ha

/-- C18: for at least one column and one row (so for columns and rows in [1,8]) and every
index `idx`, the page-break class is set at `idx` if and only if the cell sits in the last
grid position of a page: `col_idx = columns - 1` and `row_idx = rows - 1`; so it is for the
cell that the grid loop appends at position `idx`. -/
theorem page_break_at_last_cell (columns rows idx : Nat) (hc : 1 ≤ columns) (hr : 1 ≤ rows) :
    (page_break_class columns rows idx = "page-break" ↔
      col_idx columns idx = columns - 1 ∧ row_idx columns rows idx = rows - 1) ∧
    (∀ (cards : List Card) (cell : Cell),
      (renderGrid columns rows 0 cards).cells[idx]? = some cell →
      (cell.page_break_class = "page-break" ↔
        col_idx columns idx = columns - 1 ∧ row_idx columns rows idx = rows - 1)) := by
  have h := (page_break_class_eq columns rows idx).trans
    (page_break_last_position columns rows idx hc hr)
  refine ⟨h, ?_⟩
  intro cards cell hcell
  obtain ⟨card, _, hr2⟩ := renderGrid_getElem? columns rows cards 0 idx cell hcell
  rw [(renderCell_fields columns rows (0 + idx) card cell hr2).2.2.1, Nat.zero_add]
  exact h

/-- C18, witness: 3 columns and 2 rows; index 5 is flagged and is at column 2 of row 1. -/
theorem page_break_at_last_cell_witness :
    page_break_class 3 2 5 = "page-break" ↔ col_idx 3 5 = 3 - 1 ∧ row_idx 3 2 5 = 2 - 1 :=
  (page_break_at_last_cell 3 2 5 (by decide) (by decide)).1

/-! ## Theorems: the set list of `CardApi` -/

theorem fetchSetList_options_usedNetwork (env : ApiEnvironment) (force : Bool) :
    (fetchSetList env (ForceArgument.options force)).usedNetwork = true := by
  unfold fetchSetList
  cases env.cachedSetList <;> cases env.network <;> simp [ForceArgument.truthy]

theorem fetchSet_usedNetwork (env : ApiEnvironment) (setCode : String) (force : Bool) :
    (fetchSet env setCode force).usedNetwork = true := by
  have h := fetchSetList_options_usedNetwork env force
  unfold fetchSet
  simp only
  split
  · split <;> exact h
  · exact h

/-- C19, failing input: the cached set list holds the set `lea`, its timestamp is one second
old, and the network is unreachable.  `fetchSetList(false)` returns the cached list without
a fetch, but `fetchSet("lea")` with its default options passes the object `{ force: false }`,
which is truthy, goes to the network and fails. -/
theorem fetchSet_default_forces_refresh :
    (fetchSetList
      { cachedSetList := some [{ code := "lea", name := "Limited Edition Alpha" }],
        timestamp := 1000, now := 2000, network := none }
      (ForceArgument.boolean false)).usedNetwork = false ∧
    (fetchSetList
      { cachedSetList := some [{ code := "lea", name := "Limited Edition Alpha" }],
        timestamp := 1000, now := 2000, network := none }
      (ForceArgument.boolean false)).result
      = Except.ok [{ code := "lea", name := "Limited Edition Alpha" }] ∧
    (fetchSet
      { cachedSetList := some [{ code := "lea", name := "Limited Edition Alpha" }],
        timestamp := 1000, now := 2000, network := none }
      "lea" false).usedNetwork = true ∧
    (fetchSet
      { cachedSetList := some [{ code := "lea", name := "Limited Edition Alpha" }],
        timestamp := 1000, now := 2000, network := none }
      "lea" false).result = Except.error "Could not fetch set list" :=
  ⟨rfl, rfl, rfl, rfl⟩

/-! ## Theorems: equal margins in the arithmetic of JavaScript numbers -/

theorem Binary64.lt_self (x : Binary64) : Binary64.lt x x = false := by
  unfold Binary64.lt
  cases x.negative <;> simp

theorem Binary64.jsMax_self (x : Binary64) : Binary64.jsMax x x = x := by
  unfold Binary64.jsMax
  rw [Binary64.lt_self]
  rfl

set_option maxRecDepth 100000 in
/-- Known binary64 values: 1 is `2^52 * 2^-52`, 8.5 is `0x4021000000000000`, a third is
`0x3FD5555555555555`, and `0.1 + 0.2` is 0.30000000000000004 (`0x3FD3333333333334`), one
unit in the last place above the number nearest to 0.3. -/
theorem Binary64.known_values :
    Binary64.ofNat 1 = { negative := false, mant := 4503599627370496, exp := 1023 } ∧
    Binary64.ofDecimal 85 10 = { negative := false, mant := 4785074604081152, exp := 1026 } ∧
    Binary64.div (Binary64.ofNat 1) (Binary64.ofNat 3)
      = { negative := false, mant := 6004799503160661, exp := 1021 } ∧
    Binary64.add (Binary64.ofDecimal 1 10) (Binary64.ofDecimal 2 10)
      = { negative := false, mant := 5404319552844596, exp := 1021 } ∧
    Binary64.ofDecimal 3 10 = { negative := false, mant := 5404319552844595, exp := 1021 } := by
  decide

set_option maxRecDepth 100000 in
/-- The grid math of `_renderCards` on the default margins 0.16, evaluated in binary64: the
padding is 0.08; with 4 columns the edge width is 2.005 and the middle width 2.085; with 7
rows the edge height is 1.4685714285714284 and the middle height 1.5485714285714283. -/
theorem Binary64.default_margins_values :
    Binary64.ofDecimal 16 100 = { negative := false, mant := 5764607523034235, exp := 1020 } ∧
    Binary64.cardLeftRightPadding Binary64.defaultMargins
      = { negative := false, mant := 5764607523034235, exp := 1019 } ∧
    Binary64.cardWidthEdge Binary64.defaultMargins 4
      = { negative := false, mant := 4514858626438922, exp := 1024 } ∧
    Binary64.cardWidthMiddle Binary64.defaultMargins 4
      = { negative := false, mant := 4695002611533742, exp := 1024 } ∧
    Binary64.cardTopBottomPadding Binary64.defaultMargins
      = { negative := false, mant := 5764607523034235, exp := 1019 } ∧
    Binary64.cardHeightEdge Binary64.defaultMargins 7
      = { negative := false, mant := 6613857738481242, exp := 1023 } ∧
    Binary64.cardHeightMiddle Binary64.defaultMargins 7
      = { negative := false, mant := 6974145708670881, exp := 1023 } := by
  decide

set_option maxRecDepth 100000 in
/-- C13, counterexample: with the default margin 0.16 on all four sides and 4 columns,
`_renderCards` computes `cardWidthEdge = 2.005` and `cardWidthMiddle = 2.085` as binary64
numbers whose difference, as JavaScript computes it and as an exact value, is
0.08000000000000007 (5764607523034240 * 2^-56), not the padding 0.08
(5764607523034235 * 2^-56); with 7 rows the heights 1.4685714285714284 and
1.5485714285714283 differ by 0.07999999999999985, not by the padding. -/
theorem equal_margins_rounding_counterexample :
    Binary64.sub (Binary64.cssWidth Binary64.defaultMargins 4 "middle-column")
        (Binary64.cssWidth Binary64.defaultMargins 4 "first-column")
      = { negative := false, mant := 5764607523034240, exp := 1019 } ∧
    Binary64.cardLeftRightPadding Binary64.defaultMargins
      = { negative := false, mant := 5764607523034235, exp := 1019 } ∧
    Binary64.sub (Binary64.cssWidth Binary64.defaultMargins 4 "middle-column")
        (Binary64.cssWidth Binary64.defaultMargins 4 "first-column")
      ≠ Binary64.cardLeftRightPadding Binary64.defaultMargins ∧
    Binary64.toRat (Binary64.cardWidthMiddle Binary64.defaultMargins 4)
        - Binary64.toRat (Binary64.cardWidthEdge Binary64.defaultMargins 4)
      ≠ Binary64.toRat (Binary64.cardLeftRightPadding Binary64.defaultMargins) ∧
    Binary64.sub (Binary64.cssHeight Binary64.defaultMargins 7 "middle-row")
        (Binary64.cssHeight Binary64.defaultMargins 7 "first-row")
      = { negative := false, mant := 5764607523034224, exp := 1019 } ∧
    Binary64.sub (Binary64.cssHeight Binary64.defaultMargins 7 "middle-row")
        (Binary64.cssHeight Binary64.defaultMargins 7 "first-row")
      ≠ Binary64.cardTopBottomPadding Binary64.defaultMargins := by
  obtain ⟨_, h1, h2, h3, _, _, _⟩ := Binary64.default_margins_values
  refine ⟨by decide, by decide, by decide, ?_, by decide, by decide⟩
  rw [h1, h2, h3]
  norm_num [Binary64.toRat]

/-- C13, amended: with the same margin on all four sides and for all columns and rows, in
the binary64 arithmetic that `_renderCards` runs the four shims are 0, the first and the last
column get the same width, the first and the last row the same height, and both paddings are
the halved margin as computed; in exact rational arithmetic the paddings are `m/2` and the
middle column is wider than an edge column, and the middle row higher than an edge row, by
exactly `m/2`. -/
theorem equal_margins_in_both_arithmetics (m : Binary64) (q : ℚ) (columns rows : Nat) :
    Binary64.shimLeft { top := m, right := m, bottom := m, left := m } = Binary64.zero ∧
    Binary64.shimRight { top := m, right := m, bottom := m, left := m } = Binary64.zero ∧
    Binary64.shimTop { top := m, right := m, bottom := m, left := m } = Binary64.zero ∧
    Binary64.shimBottom { top := m, right := m, bottom := m, left := m } = Binary64.zero ∧
    Binary64.cssWidth { top := m, right := m, bottom := m, left := m } columns "first-column"
      = Binary64.cssWidth { top := m, right := m, bottom := m, left := m } columns
          "last-column" ∧
    Binary64.cssHeight { top := m, right := m, bottom := m, left := m } rows "first-row"
      = Binary64.cssHeight { top := m, right := m, bottom := m, left := m } rows "last-row" ∧
    Binary64.cardLeftRightPadding { top := m, right := m, bottom := m, left := m }
      = Binary64.div m (Binary64.ofNat 2) ∧
    Binary64.cardTopBottomPadding { top := m, right := m, bottom := m, left := m }
      = Binary64.div m (Binary64.ofNat 2) ∧
    cardLeftRightPadding { top := q, right := q, bottom := q, left := q } = q / 2 ∧
    cardTopBottomPadding { top := q, right := q, bottom := q, left := q } = q / 2 ∧
    cssWidth { top := q, right := q, bottom := q, left := q } columns "middle-column"
      - cssWidth { top := q, right := q, bottom := q, left := q } columns "first-column"
      = q / 2 ∧
    cssHeight { top := q, right := q, bottom := q, left := q } rows "middle-row"
      - cssHeight { top := q, right := q, bottom := q, left := q } rows "first-row"
      = q / 2 := by
  obtain ⟨_, _, _, _, _, _, e1, e2, e3, e4⟩ := equal_margins_exact q columns rows
  refine ⟨?_, ?_, ?_, ?_, ?_, ?_, ?_, ?_, e1, e2, e3, e4⟩
  · simp [Binary64.shimLeft, Binary64.lt_self]
  · simp [Binary64.shimRight, Binary64.lt_self]
  · simp [Binary64.shimTop, Binary64.lt_self]
  · simp [Binary64.shimBottom, Binary64.lt_self]
  · simp [Binary64.cssWidth]
  · simp [Binary64.cssHeight]
  · simp [Binary64.cardLeftRightPadding, Binary64.visualLeftRightMargin, Binary64.jsMax_self]
  · simp [Binary64.cardTopBottomPadding, Binary64.visualTopBottomMargin, Binary64.jsMax_self]

/-- A card whose rarity names a key inherited from `Object.prototype` gets no label: the loop
body raises, as it does for a card without rarity. -/
theorem rarityLabel_inherited_example :
    rarityLabel { name := "Karn", rarity := some "toString", collector_number := "1" } = none ∧
    rarityLabel { name := "Karn", rarity := some "constructor", collector_number := "1" }
      = none := by
  decide

end MagicBinder
